import Mathlib

/-!
Shallow embedding of the dandelion life-cycle demo (src/src/main.js) and of the
terrain / grass-field generation of the second scene variant
(src/unnamed/part_000), together with proofs of the specification claims.

Modelling conventions:
* JavaScript numbers are modelled as real numbers.
* Every `Math.random()` stream is an explicit oracle `ℕ → ℝ`, one slot per
  call site in source order (calls inside a loop get a block of slots per
  iteration).
* Purely visual data with no feedback into the game state (the rain particle
  coordinate buffer, mound / bud colours, cloud drift, camera, shaders, DOM
  status text) is not part of the state; everything the game logic reads or
  branches on is.
* `mesh.id` of a seed is modelled by a `nextId` counter in the state.
-/

noncomputable section

namespace Dandelion

/-- A 3-component vector (`THREE.Vector3`). -/
@[ext]
structure Vec3 where
  x : ℝ
  y : ℝ
  z : ℝ

/-- `THREE.Vector3.addScaledVector(v, s)`: componentwise `this + v * s`. -/
def Vec3.addScaled (p v : Vec3) (s : ℝ) : Vec3 :=
  ⟨p.x + v.x * s, p.y + v.y * s, p.z + v.z * s⟩

/-- `const windDirection = new THREE.Vector3(1, 0, 0.5).normalize()`
(main.js line 97); `normalize` divides by the length `√(1² + 0² + 0.5²)`. -/
def windDirection : Vec3 :=
  ⟨1 / Real.sqrt 1.25, 0 / Real.sqrt 1.25, 0.5 / Real.sqrt 1.25⟩

/-! ## Terrain (part_000 lines 143-161) -/

/-- part_000 `hash2(x, z)`: `s = sin(x*127.1 + z*311.7) * 43758.5453123;
return s - floor(s)`. -/
def hash2 (x z : ℝ) : ℝ :=
  let s := Real.sin (x * 127.1 + z * 311.7) * 43758.5453123
  s - ⌊s⌋

/-- part_000 `terrainHeight(x, z)`: three additive sinusoidal bands plus the
hashed jitter term. -/
def terrainHeight (x z : ℝ) : ℝ :=
  let big := Real.sin (x * 0.03) * 2.2 + Real.cos (z * 0.028) * 1.8 +
    Real.sin ((x + z) * 0.018) * 1.4
  let mid := Real.sin (x * 0.12 + z * 0.06) * 0.5 +
    Real.cos (z * 0.11 - x * 0.04) * 0.45
  let tiny := (hash2 (x * 0.6) (z * 0.6) - 0.5) * 0.15
  big * 0.25 + mid * 0.22 + tiny

/-! ## Grass placement samplers -/

/-- `THREE.MathUtils.clamp(value, lo, hi) = max(lo, min(hi, value))`. -/
def clamp (value lo hi : ℝ) : ℝ := max lo (min hi value)

/-- part_000 `smoothstep(edge0, edge1, x)`. -/
def smoothstep (edge0 edge1 x : ℝ) : ℝ :=
  let t := clamp ((x - edge0) / (edge1 - edge0)) 0 1
  t * t * (3 - 2 * t)

/-- `THREE.MathUtils.lerp(x, y, t) = (1 - t) * x + t * y`. -/
def lerp (x y t : ℝ) : ℝ := (1 - t) * x + t * y

/-- One placed grass blade of part_000 `createGrassField`. -/
structure GrassInstance where
  pos : Vec3
  yaw : ℝ
  tilt : ℝ
  scale : ℝ

/-- The named arguments of part_000 `createGrassField`. -/
structure GrassCfg where
  count : ℕ
  radius : ℝ
  moundCenter : Vec3
  moundRadius : ℝ
  noGrassPad : ℝ
  thinOuter : ℝ
  minKeep : ℝ

/-- Loop body of part_000 `createGrassField` (lines 325-356) for index `i`.
`rnd` is the `Math.random()` oracle with six slots per iteration in call
order: angle, radius, keep test, yaw, tilt, scale.  Returns `none` when the
candidate is rejected (hard no-grass zone, or the soft density ramp). -/
def grassIteration (cfg : GrassCfg) (rnd : ℕ → ℝ) (i : ℕ) : Option GrassInstance :=
  let a := rnd (6 * i) * (2 * Real.pi)
  let rr := Real.sqrt (rnd (6 * i + 1)) * cfg.radius
  let x := Real.cos a * rr
  let z := Real.sin a * rr
  let dx := x - cfg.moundCenter.x
  let dz := z - cfg.moundCenter.z
  let d := Real.sqrt (dx * dx + dz * dz)
  let noGrassRadius := cfg.moundRadius + cfg.noGrassPad
  if d < noGrassRadius then none
  else
    let t := smoothstep noGrassRadius cfg.thinOuter d
    let keepProb := lerp cfg.minKeep 1 t
    if keepProb < rnd (6 * i + 2) then none
    else
      some { pos := ⟨x, terrainHeight x z, z⟩
             yaw := rnd (6 * i + 3) * (2 * Real.pi)
             tilt := (rnd (6 * i + 4) - 0.5) * 0.15
             scale := 0.6 + rnd (6 * i + 5) * 0.65 }

/-- part_000 `createGrassField`: the list of kept instances (`kept` counts
them; `inst.count = kept` makes exactly this list the placed instances). -/
def createGrassField (cfg : GrassCfg) (rnd : ℕ → ℝ) : List GrassInstance :=
  (List.range cfg.count).filterMap (grassIteration cfg rnd)

/-- Loop body of main.js `addGrass` (lines 132-153), position only.  The
active mound sits at `(0, 0.45, 0)`, and the exclusion test measures
`distanceTo` between `(0, 0.45, 0)` and `(x, 0.45, z)`, i.e. the horizontal
distance `√(x² + z²)`.  Blades inside the exclusion radius are parked at
`(999, -999, 999)` ("effectively hidden"); the others sit at `(x, 0, z)`.
Four random slots per iteration (radius, angle, yaw, scale); yaw and scale
do not affect the placed position. -/
def addGrassBladePos (rnd : ℕ → ℝ) (i : ℕ) : Vec3 :=
  let r := Real.sqrt (rnd (4 * i)) * 35
  let a := rnd (4 * i + 1) * (2 * Real.pi)
  let x := Real.cos a * r
  let z := Real.sin a * r
  let exclusion := Real.sqrt (x * x + z * z)
  if exclusion < 2.6 then ⟨999, -999, 999⟩ else ⟨x, 0, z⟩

/-- main.js `addGrass`: the positions of all `count = 14000` instanced
blades. -/
def addGrassPositions (rnd : ℕ → ℝ) : List Vec3 :=
  (List.range 14000).map (addGrassBladePos rnd)

/-! ## Game state (main.js) -/

/-- One entry of the main.js `seeds` array: mesh position, velocity, the mesh
id (used as per-seed wind phase offset) and the `active` / `landed` flags. -/
@[ext]
structure Seed where
  pos : Vec3
  vel : Vec3
  meshId : ℕ
  active : Bool
  landed : Bool

/-- The module-level mutable game state of main.js: the four lifecycle flags,
the progress scalars, rain material opacity and button state, the seeds
array with the followed-seed reference (modelled as an index), the mound
list with the active mound, and the plant visuals the game logic writes. -/
@[ext]
structure SimState where
  planted : Bool
  watered : Bool
  blooming : Bool
  puff : Bool
  rainActive : Bool
  wetness : ℝ
  growth : ℝ
  rainOpacity : ℝ
  rainButtonDisabled : Bool
  seeds : List Seed
  followed : Option ℕ
  activeMound : Vec3
  mounds : List Vec3
  plantPos : Vec3
  plantVisible : Bool
  puffVisible : Bool
  budVisible : Bool
  stemScaleY : ℝ
  stemPosY : ℝ
  nextId : ℕ

/-- main.js `resetCycle(newMound)` (lines 298-323): clear every lifecycle
flag, zero wetness and growth, drop the followed seed, reset rain opacity
and re-enable the button, optionally switch the active mound, hide the
plant / puff / bud, reset the stem, and move the plant to the active
mound. -/
def resetCycle (s : SimState) (newMound : Option Vec3) : SimState :=
  let am := newMound.getD s.activeMound
  { s with
    planted := false
    watered := false
    blooming := false
    puff := false
    rainActive := false
    wetness := 0
    growth := 0
    followed := none
    rainOpacity := 0
    rainButtonDisabled := false
    activeMound := am
    plantVisible := false
    puffVisible := false
    budVisible := false
    stemScaleY := 0.01
    stemPosY := 0.06
    plantPos := am }

/-- main.js `startRain` (lines 325-330): guarded no-op unless planted and not
already raining or watered. -/
def startRain (s : SimState) : SimState :=
  if s.planted = false ∨ s.rainActive = true ∨ s.watered = true then s
  else { s with rainActive := true, rainButtonDisabled := true }

/-- One seed spawned by main.js `disperseSeeds` (lines 420-436): position is
the plant position plus `(0, 1.8, 0)`; velocity is a random spread plus the
wind direction scaled by `0.7 + random() * 0.6`.  Four random slots per
seed in call order: x-spread, y-lift, z-spread, wind scale. -/
def newSeed (plantPos : Vec3) (idBase : ℕ) (rnd : ℕ → ℝ) (i : ℕ) : Seed :=
  { pos := ⟨plantPos.x, plantPos.y + 1.8, plantPos.z⟩
    vel := ⟨(rnd (4 * i) - 0.5) * 1.1 + windDirection.x * (0.7 + rnd (4 * i + 3) * 0.6),
            (1.4 + rnd (4 * i + 1) * 1.7) + windDirection.y * (0.7 + rnd (4 * i + 3) * 0.6),
            (rnd (4 * i + 2) - 0.5) * 1.1 + windDirection.z * (0.7 + rnd (4 * i + 3) * 0.6)⟩
    meshId := idBase + i
    active := true
    landed := false }

/-- main.js `disperseSeeds` (lines 413-440): guarded by `state.puff`; clears
the puff flag and visuals and appends 36 fresh seeds to the array. -/
def disperseSeeds (s : SimState) (rnd : ℕ → ℝ) : SimState :=
  if s.puff = false then s
  else
    { s with
      puff := false
      puffVisible := false
      budVisible := false
      seeds := s.seeds ++ (List.range 36).map (newSeed s.plantPos s.nextId rnd)
      nextId := s.nextId + 36 }

/-- main.js `updateRain(dt, elapsed)` (lines 442-482), game-state part: while
rain is active, wetness rises at rate `0.25` clamped at `1` and the rain
opacity tracks `min(0.9, wetness)`; while inactive only the opacity decays
at rate `0.8` clamped at `0`.  When wetness reaches `1` and the mound is
not yet watered, the watered flag is set and the rain stops.  (The particle
coordinate buffer and the mound colour, which no logic reads, are
omitted.) -/
def updateRain (s : SimState) (dt : ℝ) : SimState :=
  let s1 :=
    if s.rainActive = true then
      let w := min 1 (s.wetness + dt * 0.25)
      { s with wetness := w, rainOpacity := min 0.9 w }
    else
      { s with rainOpacity := max 0 (s.rainOpacity - dt * 0.8) }
  if 1 ≤ s1.wetness ∧ s1.watered = false then
    { s1 with watered := true, rainActive := false }
  else s1

/-- main.js `updateGrowth(dt)` (lines 484-505): no-op unless blooming; growth
rises at rate `0.22` clamped at `1`, driving the stem scale / position and
bud visibility; on reaching `1` the state flips to puff-ready exactly here
(blooming off, puff on, puff and bud visible). -/
def updateGrowth (s : SimState) (dt : ℝ) : SimState :=
  if s.blooming = false then s
  else
    let g := min 1 (s.growth + dt * 0.22)
    let s1 := { s with
      growth := g
      stemScaleY := max 0.05 g
      stemPosY := 0.06 + g * 0.64
      budVisible := if 0.35 < g then true else false }
    if 1 ≤ g then
      { s1 with blooming := false, puff := true, puffVisible := true, budVisible := true }
    else s1

/-- Integration of a single seed for one frame (main.js lines 512-522): wind
drift with per-seed phase `sin(elapsed + mesh.id)`, gravity `1.2`, Euler
position update; on the new height crossing `0.45` the height is snapped to
`0.45`, the velocity zeroed and the seed marked landed.  Inactive or landed
seeds are left untouched (the `continue` branches of the loop). -/
def integrateSeed (dt elapsed : ℝ) (sd : Seed) : Seed :=
  if sd.active = false ∨ sd.landed = true then sd
  else
    let v1 := sd.vel.addScaled windDirection (dt * (0.2 + Real.sin (elapsed + sd.meshId) * 0.2))
    let v2 : Vec3 := ⟨v1.x, v1.y - 1.2 * dt, v1.z⟩
    let p := sd.pos.addScaled v2 dt
    if p.y ≤ 0.45 then
      { sd with pos := ⟨p.x, 0.45, p.z⟩, vel := ⟨0, 0, 0⟩, landed := true }
    else
      { sd with pos := p, vel := v2 }

/-- One iteration of the main.js `updateSeeds` loop (lines 508-532) for the
seed stored at index `i`: integrate it in place; if it just landed and it is
the followed seed, add a mound at its landing `(x, 0.45, z)` (main.js
`addMound` pushes it) and run `resetCycle` on the new mound. -/
def processSeed (dt elapsed : ℝ) (sd : Seed) (i : ℕ) (s : SimState) : SimState :=
  if sd.active = false ∨ sd.landed = true then s
  else
    let sd' := integrateSeed dt elapsed sd
    let s' := { s with seeds := s.seeds.set i sd' }
    if sd'.landed = true then
      if s'.followed = some i then
        let m : Vec3 := ⟨sd'.pos.x, 0.45, sd'.pos.z⟩
        resetCycle { s' with mounds := s'.mounds ++ [m] } (some m)
      else s'
    else s'

/-- The main.js `updateSeeds` loop over a snapshot of the seeds array,
threading the state (a landing-triggered reset keeps the loop going over
the remaining seeds, exactly as in the source). -/
def updateSeedsAux (dt elapsed : ℝ) : List Seed → ℕ → SimState → SimState
  | [], _, s => s
  | sd :: rest, i, s => updateSeedsAux dt elapsed rest (i + 1) (processSeed dt elapsed sd i s)

/-- main.js `updateSeeds(dt, elapsed)` (lines 507-533). -/
def updateSeeds (s : SimState) (dt elapsed : ℝ) : SimState :=
  updateSeedsAux dt elapsed s.seeds 0 s

/-! ## Input events and the step relation -/

/-- External inputs of the main.js scene: a pointer-down whose nearest ray hit
is the active mound / sun / bud / a seed / a cloud, the rain button, the
cloud-drag proximity trigger (pointermove bringing the clouds within 2.5),
and one animation frame with its `dt` and `elapsed` clock values.  The bud
click carries the `Math.random()` oracle used by `disperseSeeds`. -/
inductive Ev where
  | pointerMound : Ev
  | pointerSun : Ev
  | pointerBud : (ℕ → ℝ) → Ev
  | pointerSeed : ℕ → Ev
  | pointerCloud : Ev
  | rainButtonClick : Ev
  | cloudsTouch : Ev
  | frame : ℝ → ℝ → Ev

/-- `Ev.isFrame e` holds exactly for animation-frame events. -/
def Ev.isFrame : Ev → Prop
  | Ev.frame _ _ => True
  | _ => False

/-- `Ev.isBudClick e` holds exactly for bud-click (dispersal) events. -/
def Ev.isBudClick : Ev → Prop
  | Ev.pointerBud _ => True
  | _ => False

/-- One step of the main.js program: the pointerdown handler (lines 342-387,
with its guard order), the rain button listener, the cloud proximity
trigger of the pointermove handler (line 405-407), and the per-frame update
`updateRain; updateGrowth; updateSeeds` of `animate` (lines 550-552).
Cloud clicks only start a drag and change no game state. -/
def step (s : SimState) : Ev → SimState
  | Ev.pointerMound =>
      if s.planted = false then
        { s with
          planted := true
          plantVisible := true
          stemScaleY := 0.01
          stemPosY := 0.06
          budVisible := false }
      else s
  | Ev.pointerSun =>
      if s.watered = true ∧ s.puff = false then { s with blooming := true } else s
  | Ev.pointerBud rnd =>
      if s.puff = true then disperseSeeds s rnd else s
  | Ev.pointerSeed i =>
      if i < s.seeds.length then { s with followed := some i } else s
  | Ev.pointerCloud => s
  | Ev.rainButtonClick => startRain s
  | Ev.cloudsTouch => startRain s
  | Ev.frame dt elapsed => updateSeeds (updateGrowth (updateRain s dt) dt) dt elapsed

/-- Validity of an input: `animate` clamps `dt = min(clock.getDelta(), 0.033)`
with a non-negative clock delta, and `Math.random()` yields values in
`[0, 1)`. -/
def EvOK : Ev → Prop
  | Ev.frame dt _ => 0 ≤ dt ∧ dt ≤ 0.033
  | Ev.pointerBud rnd => ∀ n, 0 ≤ rnd n ∧ rnd n < 1
  | _ => True

/-- The scene-construction state of main.js just before the initial
`resetCycle()` call: one mound at `(0, 0.45, 0)`, full-size visible stem
and bud, no seeds, all scalars zero. -/
def initBase : SimState :=
  { planted := false
    watered := false
    blooming := false
    puff := false
    rainActive := false
    wetness := 0
    growth := 0
    rainOpacity := 0
    rainButtonDisabled := false
    seeds := []
    followed := none
    activeMound := ⟨0, 0.45, 0⟩
    mounds := [⟨0, 0.45, 0⟩]
    plantPos := ⟨0, 0.45, 0⟩
    plantVisible := false
    puffVisible := false
    budVisible := true
    stemScaleY := 1
    stemPosY := 1.05
    nextId := 0 }

/-- The initial game state: main.js line 568 runs `resetCycle()` at startup. -/
def initState : SimState := resetCycle initBase none

/-- Reachability from the initial state under valid inputs. -/
inductive Reachable : SimState → Prop
  | init : Reachable initState
  | next {s : SimState} {e : Ev} : Reachable s → EvOK e → Reachable (step s e)

/-- `n` consecutive animation frames with fixed `dt` and `elapsed`. -/
def iterFrames (dt elapsed : ℝ) : ℕ → SimState → SimState
  | 0, s => s
  | n + 1, s => iterFrames dt elapsed n (step s (Ev.frame dt elapsed))

/-! ## Invariants -/

/-- The flag ordering of the lifecycle, as claimed: watered needs planted,
blooming and puff need watered, and blooming and puff never hold
together. -/
def FlagsInv (s : SimState) : Prop :=
  (s.watered = true → s.planted = true) ∧
  (s.blooming = true → s.watered = true) ∧
  (s.puff = true → s.watered = true) ∧
  ¬(s.blooming = true ∧ s.puff = true)

/-- Strengthened inductive invariant: additionally, rain only falls on a
planted mound and wetness is only positive once planted. -/
def Inv (s : SimState) : Prop :=
  FlagsInv s ∧ (s.rainActive = true → s.planted = true) ∧
  (0 < s.wetness → s.planted = true)

/-- The shape `resetCycle` leaves behind: all lifecycle flags cleared, both
progress scalars zero, no followed seed, rain off, puff hidden. -/
def ResetLike (t : SimState) : Prop :=
  t.planted = false ∧ t.watered = false ∧ t.blooming = false ∧ t.puff = false ∧
  t.rainActive = false ∧ t.wetness = 0 ∧ t.growth = 0 ∧ t.followed = none ∧
  t.puffVisible = false

/-- A neutral concrete state used to build the concrete example states of the
witnesses: the fresh-scene state with one mound at the origin position. -/
def exBase : SimState :=
  { planted := false
    watered := false
    blooming := false
    puff := false
    rainActive := false
    wetness := 0
    growth := 0
    rainOpacity := 0
    rainButtonDisabled := false
    seeds := []
    followed := none
    activeMound := ⟨0, 0.45, 0⟩
    mounds := [⟨0, 0.45, 0⟩]
    plantPos := ⟨0, 0.45, 0⟩
    plantVisible := false
    puffVisible := false
    budVisible := false
    stemScaleY := 0.01
    stemPosY := 0.06
    nextId := 0 }

/-- A concrete puff-ready state (the state right after growth reached 1). -/
def exPuffState : SimState :=
  { exBase with
    planted := true
    watered := true
    puff := true
    wetness := 1
    growth := 1
    rainButtonDisabled := true
    plantVisible := true
    puffVisible := true
    budVisible := true
    stemScaleY := 1
    stemPosY := 0.7 }

/-- A concrete airborne seed about to touch the ground. -/
def exSeedFalling : Seed :=
  { pos := ⟨0, 0.4, 0⟩, vel := ⟨0, 0, 0⟩, meshId := 0, active := true, landed := false }

/-- A concrete seed that has already landed. -/
def exSeedLanded : Seed :=
  { pos := ⟨1, 0.45, 2⟩, vel := ⟨0, 0, 0⟩, meshId := 5, active := true, landed := true }

/-! ## A concrete run of the program

The states of the run used to refute the "no second PuffReady transition
without a reset" claim, reached from the initial state with frames of
`dt = 1/50` (well under the `0.033` clamp): plant, press the rain button,
200 frames of rain (wetness `n * 0.005` reaches 1), click the sun, 228
frames of growth (growth `n * 0.0044` reaches 1 — the first PuffReady
transition), click the bud (dispersal), click the sun again, one more
frame. -/

/-- The watering phase after `n` frames: wetness `n * 0.005`, rain opacity
tracking `min 0.9 wetness`. -/
def wateringFam (n : ℕ) : SimState :=
  { exBase with
    planted := true
    rainActive := true
    rainButtonDisabled := true
    plantVisible := true
    wetness := (n : ℝ) * 0.005
    rainOpacity := min 0.9 ((n : ℝ) * 0.005) }

/-- The state right after wetness reaches `1` (frame 200 of watering). -/
def wateredSt : SimState :=
  { exBase with
    planted := true
    watered := true
    rainButtonDisabled := true
    plantVisible := true
    wetness := 1
    rainOpacity := 0.9 }

/-- The state right after the sun click: blooming, growth still `0`. -/
def bloomEntry : SimState := { wateredSt with blooming := true }

/-- The blooming phase after `n ≥ 1` growth frames: growth `n * 0.0044`, rain
opacity decayed by `n * 0.016`, stem and bud visuals driven by growth. -/
def bloomFam (n : ℕ) : SimState :=
  { exBase with
    planted := true
    watered := true
    blooming := true
    rainButtonDisabled := true
    plantVisible := true
    wetness := 1
    growth := (n : ℝ) * 0.0044
    rainOpacity := max 0 (0.9 - (n : ℝ) * 0.016)
    stemScaleY := max 0.05 ((n : ℝ) * 0.0044)
    stemPosY := 0.06 + (n : ℝ) * 0.0044 * 0.64
    budVisible := if 0.35 < (n : ℝ) * 0.0044 then true else false }

/-- The `Math.random()` oracle of the dispersal click of the run. -/
def cxRnd : ℕ → ℝ := fun _ => 0.5

/-- The run up to pressing the rain button. -/
def cxAfterRain : SimState := step (step initState Ev.pointerMound) Ev.rainButtonClick

/-- The run up to wetness reaching `1` (200 rain frames). -/
def cxWatered : SimState := iterFrames (1 / 50) 0 200 cxAfterRain

/-- The run up to the last blooming frame before growth reaches `1`. -/
def cxS1 : SimState := iterFrames (1 / 50) 0 227 (step cxWatered Ev.pointerSun)

/-- One more frame: growth reaches `1` — the first PuffReady transition. -/
def cxS2 : SimState := step cxS1 (Ev.frame (1 / 50) 0)

/-- The bud click: dispersal clears the puff flag (not a cycle reset). -/
def cxS3 : SimState := step cxS2 (Ev.pointerBud cxRnd)

/-- A second sun click: accepted, because the puff flag is clear again. -/
def cxS4 : SimState := step cxS3 Ev.pointerSun

/-- One more frame: growth is still `1`, so the state transitions to
PuffReady a second time — with no cycle reset anywhere in between. -/
def cxS5 : SimState := step cxS4 (Ev.frame (1 / 50) 0)

/-- The dispersal state of the run as a literal: 36 fresh seeds, puff flag
and puff/bud visuals cleared, id counter advanced. -/
def cxS3lit : SimState :=
  { exPuffState with
    puff := false
    puffVisible := false
    budVisible := false
    seeds := (List.range 36).map (newSeed ⟨0, 0.45, 0⟩ 0 cxRnd)
    nextId := 36 }

/-- The run after the second sun click: blooming again, growth still `1`. -/
def cxS4lit : SimState := { cxS3lit with blooming := true }

/-- A state blooming a second time right after dispersal (puff flag cleared,
growth still `1`, no seeds kept, no followed seed) — used in the
amended-claim witness. -/
def exSecondBloom : SimState := { exPuffState with puff := false, blooming := true }

/-- A watered state blooming at an intermediate growth `g` — used in the
amended-claim witness. -/
def exBloomMid (g : ℝ) : SimState :=
  { exBase with planted := true, watered := true, blooming := true, growth := g }

/-! ## List helper lemmas -/

theorem take_set_of_le {α : Type} : ∀ (l : List α) (i n : ℕ) (a : α), n ≤ i →
    (l.set i a).take n = l.take n
  | [], _, _, _, _ => rfl
  | _ :: _, _, 0, _, _ => rfl
  | _ :: _, 0, n + 1, _, h => absurd h (by omega)
  | x :: xs, i + 1, n + 1, a, h => by
      simp only [List.set, List.take_succ_cons]
      rw [take_set_of_le xs i n a (by omega)]

theorem set_of_getElem_eq {α : Type} : ∀ (l : List α) (i : ℕ) (a : α), l[i]? = some a →
    l.set i a = l
  | [], i, a, h => by simp at h
  | x :: xs, 0, a, h => by
      simp only [List.getElem?_cons_zero, Option.some.injEq] at h
      simp [h]
  | x :: xs, i + 1, a, h => by
      simp only [List.getElem?_cons_succ] at h
      simp only [List.set]
      rw [set_of_getElem_eq xs i a h]

theorem getElem_eq_of_drop_cons {α : Type} {l : List α} {i : ℕ} {a : α} {rest : List α}
    (h : l.drop i = a :: rest) : l[i]? = some a := by
  have h0 := List.getElem?_drop l i 0
  rw [h] at h0
  simpa using h0.symm

theorem take_succ_set {α : Type} (l : List α) (i : ℕ) (a : α) (h : i < l.length) :
    (l.set i a).take (i + 1) = l.take i ++ [a] := by
  rw [List.take_succ, List.getElem?_set_self h, take_set_of_le l i i a le_rfl]
  rfl

/-! ## The seeds array under `updateSeeds` -/

/-- One loop iteration rewrites exactly its own slot of the seeds array with
the integrated seed; a landing-triggered `resetCycle` does not touch the
array.  (In the `continue` branches the slot is rewritten with its old
value, which changes nothing.) -/
theorem processSeed_seeds (dt elapsed : ℝ) (sd : Seed) (i : ℕ) (s : SimState)
    (hget : s.seeds[i]? = some sd) :
    (processSeed dt elapsed sd i s).seeds = s.seeds.set i (integrateSeed dt elapsed sd) := by
  simp only [processSeed, resetCycle]
  split
  · rename_i hskip
    have hint : integrateSeed dt elapsed sd = sd := by
      simp only [integrateSeed]
      rw [if_pos hskip]
    rw [hint, set_of_getElem_eq s.seeds i sd hget]
  · split
    · split
      · rfl
      · rfl
    · rfl

/-- The drop of the seeds array one past a just-set index. -/
theorem drop_succ_set {α : Type} (l : List α) (i : ℕ) (a : α) :
    (l.set i a).drop (i + 1) = l.drop (i + 1) :=
  List.drop_set_of_lt a l (Nat.lt_succ_self i)

/-- The final seeds array is the pointwise integration of the snapshot the
loop iterates over. -/
theorem updateSeedsAux_seeds (dt elapsed : ℝ) : ∀ (olds : List Seed) (i : ℕ) (s : SimState),
    s.seeds.drop i = olds →
    (updateSeedsAux dt elapsed olds i s).seeds =
      s.seeds.take i ++ olds.map (integrateSeed dt elapsed)
  | [], i, s, h => by
      simp only [updateSeedsAux, List.map_nil, List.append_nil]
      have h2 := List.take_append_drop i s.seeds
      rw [h, List.append_nil] at h2
      exact h2.symm
  | sd :: rest, i, s, h => by
      have hget : s.seeds[i]? = some sd := getElem_eq_of_drop_cons h
      have hlen : i < s.seeds.length := (List.getElem?_eq_some.mp hget).1
      have hdrop1 : s.seeds.drop (i + 1) = rest := by
        have h3 := List.drop_drop 1 i s.seeds
        rw [h] at h3
        simpa [Nat.add_comm] using h3.symm
      simp only [updateSeedsAux]
      have hs1 := processSeed_seeds dt elapsed sd i s hget
      rw [updateSeedsAux_seeds dt elapsed rest (i + 1) (processSeed dt elapsed sd i s)
        (by rw [hs1, drop_succ_set, hdrop1])]
      rw [hs1, take_succ_set s.seeds i _ hlen]
      simp

/-- main.js `updateSeeds` maps `integrateSeed` over the seeds array. -/
theorem updateSeeds_seeds (s : SimState) (dt elapsed : ℝ) :
    (updateSeeds s dt elapsed).seeds = s.seeds.map (integrateSeed dt elapsed) := by
  have h := updateSeedsAux_seeds dt elapsed s.seeds 0 s (by rfl)
  simpa [updateSeeds] using h

/-! ## Control-state effects of the seeds loop -/

/-- An iteration whose index is not the followed index cannot reset: it only
rewrites the seeds array. -/
theorem processSeed_noHit (dt elapsed : ℝ) (sd : Seed) (i : ℕ) (s : SimState)
    (hne : s.followed ≠ some i) :
    processSeed dt elapsed sd i s = { s with seeds := (processSeed dt elapsed sd i s).seeds } := by
  simp only [processSeed]
  split_ifs with h1 h2
  · rfl
  · rfl
  · rfl

/-- If the followed index (when present) is outside the index range the loop
still has to visit, no iteration triggers `resetCycle`: everything except
the seeds array is unchanged. -/
theorem updateSeedsAux_noHit (dt elapsed : ℝ) : ∀ (olds : List Seed) (i : ℕ) (s : SimState),
    (∀ j, s.followed = some j → j < i ∨ i + olds.length ≤ j) →
    updateSeedsAux dt elapsed olds i s =
      { s with seeds := (updateSeedsAux dt elapsed olds i s).seeds }
  | [], _, _, _ => rfl
  | sd :: rest, i, s, hf => by
      have hne : s.followed ≠ some i := by
        intro heq
        rcases hf i heq with h1 | h2
        · omega
        · simp only [List.length_cons] at h2
          omega
      have hshape := processSeed_noHit dt elapsed sd i s hne
      have hrec := updateSeedsAux_noHit dt elapsed rest (i + 1) (processSeed dt elapsed sd i s)
        (by
          intro j hj
          rw [hshape] at hj
          have h4 := hf j hj
          simp only [List.length_cons] at h4
          omega)
      simp only [updateSeedsAux]
      rw [hrec, hshape]

/-- With no followed seed the whole `updateSeeds` pass only rewrites the seeds
array. -/
theorem updateSeeds_noFollow (s : SimState) (dt elapsed : ℝ) (h : s.followed = none) :
    updateSeeds s dt elapsed = { s with seeds := (updateSeeds s dt elapsed).seeds } := by
  have h2 := updateSeedsAux_noHit dt elapsed s.seeds 0 s
    (by intro j hj; rw [h] at hj; exact Option.noConfusion hj)
  simpa [updateSeeds] using h2

/-- `resetCycle` always leaves a reset-shaped state. -/
theorem resetLike_resetCycle (s : SimState) (m : Option Vec3) : ResetLike (resetCycle s m) := by
  simp [ResetLike, resetCycle]

/-- A single loop iteration either only rewrites the seeds array or performs a
full cycle reset. -/
theorem processSeed_shape (dt elapsed : ℝ) (sd : Seed) (i : ℕ) (s : SimState) :
    processSeed dt elapsed sd i s = { s with seeds := (processSeed dt elapsed sd i s).seeds } ∨
    ResetLike (processSeed dt elapsed sd i s) := by
  simp only [processSeed]
  split_ifs with h1 h2 h3
  · exact Or.inl rfl
  · exact Or.inr (resetLike_resetCycle _ _)
  · exact Or.inl rfl
  · exact Or.inl rfl

/-- A reset-shaped state stays reset-shaped when only its seeds array is
rewritten. -/
theorem resetLike_withSeeds {t : SimState} (l : List Seed) (h : ResetLike t) :
    ResetLike { t with seeds := l } := h

/-- The whole seeds loop either only rewrites the seeds array or ends in a
reset-shaped state. -/
theorem updateSeedsAux_shape (dt elapsed : ℝ) : ∀ (olds : List Seed) (i : ℕ) (s : SimState),
    updateSeedsAux dt elapsed olds i s =
      { s with seeds := (updateSeedsAux dt elapsed olds i s).seeds } ∨
    ResetLike (updateSeedsAux dt elapsed olds i s)
  | [], _, _ => Or.inl rfl
  | sd :: rest, i, s => by
      simp only [updateSeedsAux]
      rcases processSeed_shape dt elapsed sd i s with hsh | hres
      · rcases updateSeedsAux_shape dt elapsed rest (i + 1) (processSeed dt elapsed sd i s)
          with hsh2 | hres2
        · left
          rw [hsh2, hsh]
        · exact Or.inr hres2
      · right
        have hnone : (processSeed dt elapsed sd i s).followed = none := hres.2.2.2.2.2.2.2.1
        have h2 := updateSeedsAux_noHit dt elapsed rest (i + 1) (processSeed dt elapsed sd i s)
          (by intro j hj; rw [hnone] at hj; exact Option.noConfusion hj)
        rw [h2]
        exact resetLike_withSeeds _ hres

/-- `updateSeeds` either only rewrites the seeds array or ends reset-shaped. -/
theorem updateSeeds_shape (s : SimState) (dt elapsed : ℝ) :
    updateSeeds s dt elapsed = { s with seeds := (updateSeeds s dt elapsed).seeds } ∨
    ResetLike (updateSeeds s dt elapsed) :=
  updateSeedsAux_shape dt elapsed s.seeds 0 s

/-! ## The inductive invariant -/

/-- A reset-shaped state satisfies the invariant. -/
theorem inv_of_resetLike {t : SimState} (h : ResetLike t) : Inv t := by
  obtain ⟨h1, h2, h3, h4, h5, h6, -, -, -⟩ := h
  refine ⟨⟨?_, ?_, ?_, ?_⟩, ?_, ?_⟩ <;> simp_all

/-- The invariant only reads fields other than the seeds array. -/
theorem inv_withSeeds {t : SimState} (l : List Seed) (h : Inv t) :
    Inv { t with seeds := l } := h

/-- `updateRain` preserves the invariant. -/
theorem inv_updateRain {s : SimState} (dt : ℝ) (h : Inv s) : Inv (updateRain s dt) := by
  obtain ⟨⟨hwp, hbw, hpw, hbp⟩, hrp, hwep⟩ := h
  simp only [updateRain]
  by_cases hra : s.rainActive = true
  · have hpl : s.planted = true := hrp hra
    rw [if_pos hra]
    split
    · refine ⟨⟨?_, ?_, ?_, ?_⟩, ?_, ?_⟩ <;> simp_all
    · refine ⟨⟨?_, ?_, ?_, ?_⟩, ?_, ?_⟩ <;> simp_all
  · rw [if_neg hra]
    split
    · rename_i hcond
      have hpl : s.planted = true := hwep (lt_of_lt_of_le one_pos hcond.1)
      refine ⟨⟨?_, ?_, ?_, ?_⟩, ?_, ?_⟩ <;> simp_all
    · exact ⟨⟨hwp, hbw, hpw, hbp⟩, hrp, hwep⟩

/-- `updateGrowth` preserves the invariant. -/
theorem inv_updateGrowth {s : SimState} (dt : ℝ) (h : Inv s) : Inv (updateGrowth s dt) := by
  obtain ⟨⟨hwp, hbw, hpw, hbp⟩, hrp, hwep⟩ := h
  simp only [updateGrowth]
  split
  · exact ⟨⟨hwp, hbw, hpw, hbp⟩, hrp, hwep⟩
  · rename_i hbl
    have hb : s.blooming = true := by
      cases hB : s.blooming
      · exact absurd hB hbl
      · rfl
    have hw : s.watered = true := hbw hb
    split
    · refine ⟨⟨?_, ?_, ?_, ?_⟩, ?_, ?_⟩ <;> simp_all
    · refine ⟨⟨?_, ?_, ?_, ?_⟩, ?_, ?_⟩ <;> simp_all

/-- `updateSeeds` preserves the invariant. -/
theorem inv_updateSeeds {s : SimState} (dt elapsed : ℝ) (h : Inv s) :
    Inv (updateSeeds s dt elapsed) := by
  rcases updateSeeds_shape s dt elapsed with hsh | hres
  · rw [hsh]
    exact inv_withSeeds _ h
  · exact inv_of_resetLike hres

/-- Every step of the program preserves the invariant. -/
theorem inv_step {s : SimState} (e : Ev) (h : Inv s) : Inv (step s e) := by
  obtain ⟨⟨hwp, hbw, hpw, hbp⟩, hrp, hwep⟩ := h
  cases e with
  | pointerMound =>
      simp only [step]
      split
      · refine ⟨⟨?_, ?_, ?_, ?_⟩, ?_, ?_⟩ <;> simp_all
      · exact ⟨⟨hwp, hbw, hpw, hbp⟩, hrp, hwep⟩
  | pointerSun =>
      simp only [step]
      split
      · rename_i hc
        refine ⟨⟨?_, ?_, ?_, ?_⟩, ?_, ?_⟩ <;> simp_all
      · exact ⟨⟨hwp, hbw, hpw, hbp⟩, hrp, hwep⟩
  | pointerBud rnd =>
      simp only [step]
      split
      · simp only [disperseSeeds]
        split
        · exact ⟨⟨hwp, hbw, hpw, hbp⟩, hrp, hwep⟩
        · refine ⟨⟨?_, ?_, ?_, ?_⟩, ?_, ?_⟩ <;> simp_all
      · exact ⟨⟨hwp, hbw, hpw, hbp⟩, hrp, hwep⟩
  | pointerSeed i =>
      simp only [step]
      split
      · exact ⟨⟨hwp, hbw, hpw, hbp⟩, hrp, hwep⟩
      · exact ⟨⟨hwp, hbw, hpw, hbp⟩, hrp, hwep⟩
  | pointerCloud => exact ⟨⟨hwp, hbw, hpw, hbp⟩, hrp, hwep⟩
  | rainButtonClick =>
      simp only [step, startRain]
      split
      · exact ⟨⟨hwp, hbw, hpw, hbp⟩, hrp, hwep⟩
      · rename_i hc
        push_neg at hc
        refine ⟨⟨?_, ?_, ?_, ?_⟩, ?_, ?_⟩ <;> simp_all
  | cloudsTouch =>
      simp only [step, startRain]
      split
      · exact ⟨⟨hwp, hbw, hpw, hbp⟩, hrp, hwep⟩
      · rename_i hc
        push_neg at hc
        refine ⟨⟨?_, ?_, ?_, ?_⟩, ?_, ?_⟩ <;> simp_all
  | frame dt elapsed =>
      exact inv_updateSeeds dt elapsed
        (inv_updateGrowth dt (inv_updateRain dt ⟨⟨hwp, hbw, hpw, hbp⟩, hrp, hwep⟩))

/-- The initial state satisfies the invariant. -/
theorem inv_init : Inv initState :=
  inv_of_resetLike (resetLike_resetCycle initBase none)

/-- Every reachable state satisfies the invariant. -/
theorem inv_reachable {s : SimState} (h : Reachable s) : Inv s := by
  induction h with
  | init => exact inv_init
  | next _ _ ih => exact inv_step _ ih

/-- The seeds loop over a concatenated snapshot runs the two pieces in
sequence. -/
theorem updateSeedsAux_append (dt elapsed : ℝ) : ∀ (l₁ l₂ : List Seed) (i : ℕ) (s : SimState),
    updateSeedsAux dt elapsed (l₁ ++ l₂) i s =
      updateSeedsAux dt elapsed l₂ (i + l₁.length) (updateSeedsAux dt elapsed l₁ i s)
  | [], l₂, i, s => by simp [updateSeedsAux]
  | sd :: rest, l₂, i, s => by
      show updateSeedsAux dt elapsed (rest ++ l₂) (i + 1) (processSeed dt elapsed sd i s) =
        updateSeedsAux dt elapsed l₂ (i + (sd :: rest).length)
          (updateSeedsAux dt elapsed rest (i + 1) (processSeed dt elapsed sd i s))
      rw [updateSeedsAux_append dt elapsed rest l₂ (i + 1) (processSeed dt elapsed sd i s)]
      congr 1
      simp only [List.length_cons]
      omega

/-! ## Claim C1 — grass placement bounds -/

/-- Claim C1: in every run of either grass placement sampler, the number of
placed instances is at most the requested count, and no placed instance
lies strictly inside the exclusion radius around the mound centre (for
`createGrassField`, horizontal distance at least `moundRadius + noGrassPad`
from the mound centre; for main.js `addGrass`, horizontal distance at least
`2.6` from the mound at the origin — the rejected blades are parked at
`(999, -999, 999)`, far outside). -/
theorem c1_placement_sampler_bounds (cfg : GrassCfg) (rnd : ℕ → ℝ) :
    (createGrassField cfg rnd).length ≤ cfg.count ∧
    (∀ g ∈ createGrassField cfg rnd,
       cfg.moundRadius + cfg.noGrassPad ≤
         Real.sqrt ((g.pos.x - cfg.moundCenter.x) * (g.pos.x - cfg.moundCenter.x) +
           (g.pos.z - cfg.moundCenter.z) * (g.pos.z - cfg.moundCenter.z))) ∧
    (addGrassPositions rnd).length ≤ 14000 ∧
    (∀ p ∈ addGrassPositions rnd, (2.6 : ℝ) ≤ Real.sqrt (p.x * p.x + p.z * p.z)) := by
  refine ⟨?_, ?_, ?_, ?_⟩
  · simpa [createGrassField] using
      List.length_filterMap_le (grassIteration cfg rnd) (List.range cfg.count)
  · intro g hg
    rcases List.mem_filterMap.mp hg with ⟨i, -, heq⟩
    simp only [grassIteration] at heq
    split_ifs at heq with h1 h2
    rw [Option.some.injEq] at heq
    subst heq
    push_neg at h1
    simpa using h1
  · simp [addGrassPositions]
  · intro p hp
    rcases List.mem_map.mp hp with ⟨i, -, heq⟩
    simp only [addGrassBladePos] at heq
    split_ifs at heq with h1
    · subst heq
      rw [show (2.6 : ℝ) = Real.sqrt 6.76 by
        rw [show (6.76 : ℝ) = 2.6 ^ 2 by norm_num, Real.sqrt_sq (by norm_num)]]
      exact Real.sqrt_le_sqrt (by norm_num)
    · subst heq
      push_neg at h1
      simpa using h1

/-- Witness for C1 at a concrete configuration and oracle. -/
theorem c1_witness :
    (createGrassField ⟨35000, 70, ⟨0, 0, 0⟩, 3.2, 0.6, 7, 0.1⟩ (fun _ => 0)).length ≤ 35000 :=
  (c1_placement_sampler_bounds ⟨35000, 70, ⟨0, 0, 0⟩, 3.2, 0.6, 7, 0.1⟩ (fun _ => 0)).1

/-! ## Claim C2 — wetness dynamics (corrected) -/

/-- Claim C2 as amended: while rain is active, wetness follows
`min 1 (wetness + dt * 0.25)` — non-decreasing (for wetness within `[0,1]`
and `dt ≥ 0`) and clamped exactly at `1`; while rain is inactive, wetness
is left unchanged by the frame step and only the rain opacity decays at the
faster rate `0.8`, clamped at `0`; wetness stays within `[0,1]`. -/
theorem c2_wetness_amended :
    (∀ (s : SimState) (dt : ℝ), 0 ≤ dt → 0 ≤ s.wetness → s.wetness ≤ 1 →
       s.rainActive = true →
       s.wetness ≤ (updateRain s dt).wetness ∧
       (updateRain s dt).wetness = min 1 (s.wetness + dt * 0.25)) ∧
    (∀ (s : SimState) (dt : ℝ), s.rainActive = false →
       (updateRain s dt).wetness = s.wetness ∧
       (updateRain s dt).rainOpacity = max 0 (s.rainOpacity - dt * 0.8)) ∧
    (∀ (s : SimState) (dt : ℝ), 0 ≤ dt → 0 ≤ s.wetness → s.wetness ≤ 1 →
       0 ≤ (updateRain s dt).wetness ∧ (updateRain s dt).wetness ≤ 1) := by
  refine ⟨?_, ?_, ?_⟩
  · intro s dt hdt h0 h1 hra
    simp only [updateRain]
    rw [if_pos hra]
    constructor
    · split
      · exact le_min h1 (by linarith)
      · exact le_min h1 (by linarith)
    · split
      · rfl
      · rfl
  · intro s dt hra
    simp only [updateRain]
    have hra' : ¬(s.rainActive = true) := by
      rw [hra]
      exact fun hc => Bool.noConfusion hc
    rw [if_neg hra']
    constructor
    · split
      · rfl
      · rfl
    · split
      · rfl
      · rfl
  · intro s dt hdt h0 h1
    simp only [updateRain]
    by_cases hra : s.rainActive = true
    · rw [if_pos hra]
      constructor
      · split
        · exact le_min (by norm_num) (by linarith)
        · exact le_min (by norm_num) (by linarith)
      · split
        · exact min_le_left _ _
        · exact min_le_left _ _
    · rw [if_neg hra]
      constructor
      · split
        · exact h0
        · exact h0
      · split
        · exact h1
        · exact h1

/-- Witness for the amended C2 at concrete states. -/
theorem c2_witness :
    ({ exBase with planted := true, rainActive := true, wetness := 0.3 } : SimState).wetness ≤
      (updateRain { exBase with planted := true, rainActive := true, wetness := 0.3 }
        (1 / 100)).wetness ∧
    (updateRain { exBase with wetness := 0.5 } (1 / 100)).wetness =
      ({ exBase with wetness := 0.5 } : SimState).wetness ∧
    0 ≤ (updateRain { exBase with rainActive := true } (1 / 100)).wetness :=
  ⟨(c2_wetness_amended.1 _ _ (by norm_num) (by norm_num [exBase]) (by norm_num [exBase]) rfl).1,
   (c2_wetness_amended.2.1 _ _ rfl).1,
   (c2_wetness_amended.2.2 _ _ (by norm_num) (by norm_num [exBase]) (by norm_num [exBase])).1⟩

/-! ## Claim C5 — dispersal batch -/

/-- Claim C5: clicking the bud while the puff is ready always spawns exactly
36 seeds; each is created at the plant position raised by the bud height
`1.8` (inside the puff ball), is active and not landed, and has a strictly
positive vertical velocity (the wind direction has no vertical
component). -/
theorem c5_dispersal_batch (s : SimState) (rnd : ℕ → ℝ) (hp : s.puff = true)
    (hr : ∀ n, 0 ≤ rnd n) :
    (step s (Ev.pointerBud rnd)).seeds.length = s.seeds.length + 36 ∧
    ∀ sd ∈ (step s (Ev.pointerBud rnd)).seeds.drop s.seeds.length,
      0 < sd.vel.y ∧ sd.pos = ⟨s.plantPos.x, s.plantPos.y + 1.8, s.plantPos.z⟩ ∧
      sd.active = true ∧ sd.landed = false := by
  have hstep : step s (Ev.pointerBud rnd) =
      { s with
        puff := false
        puffVisible := false
        budVisible := false
        seeds := s.seeds ++ (List.range 36).map (newSeed s.plantPos s.nextId rnd)
        nextId := s.nextId + 36 } := by
    simp [step, disperseSeeds, hp]
  rw [hstep]
  constructor
  · simp
  · intro sd hsd
    simp only [List.drop_left] at hsd
    rcases List.mem_map.mp hsd with ⟨i, -, heq⟩
    subst heq
    refine ⟨?_, rfl, rfl, rfl⟩
    show 0 < (1.4 + rnd (4 * i + 1) * 1.7) + windDirection.y * (0.7 + rnd (4 * i + 3) * 0.6)
    have h1 := hr (4 * i + 1)
    simp only [windDirection]
    rw [zero_div]
    nlinarith

/-- Witness for C5 at the concrete puff-ready state with the zero oracle. -/
theorem c5_witness :
    (step exPuffState (Ev.pointerBud fun _ => 0)).seeds.length =
      exPuffState.seeds.length + 36 :=
  (c5_dispersal_batch exPuffState (fun _ => 0) rfl (fun _ => le_rfl)).1

/-! ## Claim C6 — landed seeds are inert -/

/-- Claim C6: a seed whose integration step crosses the ground threshold is
marked landed with velocity exactly `(0,0,0)` and height exactly `0.45`;
a landed seed is left exactly unchanged by the integrator; and at the
system level a landed seed's array slot is unchanged by `updateSeeds` on
every subsequent frame. -/
theorem c6_landed_seeds_inert :
    (∀ (dt elapsed : ℝ) (sd : Seed), sd.active = true → sd.landed = false →
       (integrateSeed dt elapsed sd).landed = true →
       (integrateSeed dt elapsed sd).vel = ⟨0, 0, 0⟩ ∧
       (integrateSeed dt elapsed sd).pos.y = 0.45) ∧
    (∀ (dt elapsed : ℝ) (sd : Seed), sd.landed = true → integrateSeed dt elapsed sd = sd) ∧
    (∀ (s : SimState) (dt elapsed : ℝ) (i : ℕ) (sd : Seed), s.seeds[i]? = some sd →
       sd.landed = true → (updateSeeds s dt elapsed).seeds[i]? = some sd) := by
  have hland : ∀ (dt elapsed : ℝ) (sd : Seed), sd.landed = true →
      integrateSeed dt elapsed sd = sd := by
    intro dt elapsed sd h
    simp only [integrateSeed]
    rw [if_pos (Or.inr h)]
  refine ⟨?_, hland, ?_⟩
  · intro dt elapsed sd hact hnl hres
    have hskip : ¬(sd.active = false ∨ sd.landed = true) := by
      simp [hact, hnl]
    simp only [integrateSeed] at hres ⊢
    rw [if_neg hskip] at hres ⊢
    split at hres
    · rename_i hy
      rw [if_pos hy]
      exact ⟨rfl, rfl⟩
    · rw [hnl] at hres
      exact absurd hres (by simp)
  · intro s dt elapsed i sd hget h
    rw [updateSeeds_seeds, List.getElem?_map, hget]
    simp [hland dt elapsed sd h]

/-- Witness for C6 at concrete seeds: a seed at height `0.4` with zero
velocity lands in a `dt = 0` step; a landed seed is unchanged; the
landed seed's slot survives `updateSeeds`. -/
theorem c6_witness :
    ((integrateSeed 0 0 exSeedFalling).vel = ⟨0, 0, 0⟩ ∧
      (integrateSeed 0 0 exSeedFalling).pos.y = 0.45) ∧
    integrateSeed 1 2 exSeedLanded = exSeedLanded ∧
    (updateSeeds { exBase with seeds := [exSeedLanded] } 1 2).seeds[0]? = some exSeedLanded :=
  ⟨c6_landed_seeds_inert.1 0 0 exSeedFalling rfl rfl
      (by norm_num [integrateSeed, exSeedFalling, Vec3.addScaled]),
   c6_landed_seeds_inert.2.1 1 2 exSeedLanded rfl,
   c6_landed_seeds_inert.2.2 { exBase with seeds := [exSeedLanded] } 1 2 0 exSeedLanded rfl rfl⟩

/-! ## Claim C7 — guarded no-ops -/

/-- Claim C7: clicking the mound while already planted, clicking the sun
before watered, and re-triggering rain (via the button or the cloud
proximity trigger) while already raining or watered, each leave the state
exactly unchanged — every transition is guarded before any mutation. -/
theorem c7_guarded_noops (s : SimState) :
    (s.planted = true → step s Ev.pointerMound = s) ∧
    (s.watered = false → step s Ev.pointerSun = s) ∧
    (s.rainActive = true ∨ s.watered = true →
      startRain s = s ∧ step s Ev.rainButtonClick = s ∧ step s Ev.cloudsTouch = s) := by
  refine ⟨?_, ?_, ?_⟩
  · intro hp
    simp [step, hp]
  · intro hw
    simp [step, hw]
  · intro h
    have hs : startRain s = s := by
      rcases h with h | h
      · simp [startRain, h]
      · simp [startRain, h]
    exact ⟨hs, by simp [step, hs], by simp [step, hs]⟩

/-- Witness for C7 at a concrete planted, raining, unwatered state. -/
theorem c7_witness :
    step { exBase with planted := true, rainActive := true } Ev.pointerMound =
      { exBase with planted := true, rainActive := true } ∧
    step { exBase with planted := true, rainActive := true } Ev.pointerSun =
      { exBase with planted := true, rainActive := true } ∧
    startRain { exBase with planted := true, rainActive := true } =
      { exBase with planted := true, rainActive := true } :=
  ⟨(c7_guarded_noops _).1 rfl, (c7_guarded_noops _).2.1 rfl,
   ((c7_guarded_noops _).2.2 (Or.inl rfl)).1⟩

/-! ## Claim C8 — terrain determinism -/

/-- Claim C8: the terrain height function is a pure function — identical
inputs give identical elevations — and its hashed jitter term is a pure
fractional value in `[0, 1)` rather than a stateful RNG. -/
theorem c8_terrain_deterministic (x₁ z₁ x₂ z₂ : ℝ) (hx : x₁ = x₂) (hz : z₁ = z₂) :
    terrainHeight x₁ z₁ = terrainHeight x₂ z₂ ∧
    0 ≤ hash2 x₁ z₁ ∧ hash2 x₁ z₁ < 1 := by
  subst hx hz
  refine ⟨rfl, ?_, ?_⟩
  · show 0 ≤ Real.sin (x₁ * 127.1 + z₁ * 311.7) * 43758.5453123 -
      ⌊Real.sin (x₁ * 127.1 + z₁ * 311.7) * 43758.5453123⌋
    exact Int.fract_nonneg _
  · show Real.sin (x₁ * 127.1 + z₁ * 311.7) * 43758.5453123 -
      ⌊Real.sin (x₁ * 127.1 + z₁ * 311.7) * 43758.5453123⌋ < 1
    exact Int.fract_lt_one _

/-- Witness for C8 at `(0, 0)`. -/
theorem c8_witness : terrainHeight 0 0 = terrainHeight 0 0 ∧ 0 ≤ hash2 0 0 ∧ hash2 0 0 < 1 :=
  c8_terrain_deterministic 0 0 0 0 rfl rfl

/-! ## Claim C9 — resetCycle never touches the seeds array -/

/-- Claim C9: `resetCycle` rewrites only the lifecycle/rain/plant-visual
fields — the seeds array, the mound list and the id counter are untouched;
each dispersal appends exactly 36 records, keeping all previous ones; and
any index of the seeds array — also one left over from a previous cycle —
can still be picked to become followed. -/
theorem c9_reset_preserves_seeds :
    (∀ (s : SimState) (m : Option Vec3),
       (resetCycle s m).seeds = s.seeds ∧ (resetCycle s m).mounds = s.mounds ∧
       (resetCycle s m).nextId = s.nextId) ∧
    (∀ (s : SimState) (rnd : ℕ → ℝ), s.puff = true →
       (disperseSeeds s rnd).seeds.length = s.seeds.length + 36 ∧
       (disperseSeeds s rnd).seeds.take s.seeds.length = s.seeds) ∧
    (∀ (s : SimState) (i : ℕ), i < s.seeds.length →
       (step s (Ev.pointerSeed i)).followed = some i ∧
       (step s (Ev.pointerSeed i)).seeds = s.seeds) := by
  refine ⟨?_, ?_, ?_⟩
  · intro s m
    exact ⟨rfl, rfl, rfl⟩
  · intro s rnd hp
    have hd : disperseSeeds s rnd =
        { s with
          puff := false
          puffVisible := false
          budVisible := false
          seeds := s.seeds ++ (List.range 36).map (newSeed s.plantPos s.nextId rnd)
          nextId := s.nextId + 36 } := by
      simp [disperseSeeds, hp]
    rw [hd]
    exact ⟨by simp, List.take_left _ _⟩
  · intro s i hi
    simp [step, hi]

/-- Witness for C9 at a concrete one-seed puff state. -/
theorem c9_witness :
    (disperseSeeds { exPuffState with seeds := [exSeedLanded] } (fun _ => 0)).seeds.length =
      ({ exPuffState with seeds := [exSeedLanded] } : SimState).seeds.length + 36 ∧
    (step { exPuffState with seeds := [exSeedLanded] } (Ev.pointerSeed 0)).followed = some 0 :=
  ⟨((c9_reset_preserves_seeds.2.1 { exPuffState with seeds := [exSeedLanded] }
      (fun _ => 0)) rfl).1,
   (c9_reset_preserves_seeds.2.2 { exPuffState with seeds := [exSeedLanded] } 0
      (by simp)).1⟩

/-! ## Claim C10 — flag ordering in every reachable state -/

/-- Claim C10: in every reachable state, watered implies planted, blooming
implies watered, puff implies watered, and blooming and puff are never
simultaneously true. -/
theorem c10_flag_order (s : SimState) (h : Reachable s) :
    (s.watered = true → s.planted = true) ∧ (s.blooming = true → s.watered = true) ∧
    (s.puff = true → s.watered = true) ∧ ¬(s.blooming = true ∧ s.puff = true) :=
  (inv_reachable h).1

/-- Witness for C10 at the initial state. -/
theorem c10_witness :
    (initState.watered = true → initState.planted = true) ∧
    (initState.blooming = true → initState.watered = true) ∧
    (initState.puff = true → initState.watered = true) ∧
    ¬(initState.blooming = true ∧ initState.puff = true) :=
  c10_flag_order initState Reachable.init

/-! ## Claim C3 — followed seed landing starts a new cycle -/

/-- Claim C3: when the followed seed's height reaches ground level during a
frame, a new mound is created at its landing `(x, 0.45, z)` and pushed onto
the mound list, the new mound becomes the active mound (with the plant
moved onto it), and the cycle resets fully: wetness and growth are `0`, the
puff (and whole plant) is hidden, the followed reference is dropped, rain
is off and every lifecycle flag is cleared — the Explore-equivalent
state. -/
theorem c3_followed_landing_resets (s : SimState) (dt elapsed : ℝ) (i : ℕ) (sd : Seed)
    (hf : s.followed = some i)
    (hget : s.seeds[i]? = some sd)
    (hact : sd.active = true) (hnl : sd.landed = false)
    (hland : (integrateSeed dt elapsed sd).landed = true) :
    (updateSeeds s dt elapsed).activeMound =
      ⟨(integrateSeed dt elapsed sd).pos.x, 0.45, (integrateSeed dt elapsed sd).pos.z⟩ ∧
    (updateSeeds s dt elapsed).mounds = s.mounds ++
      [⟨(integrateSeed dt elapsed sd).pos.x, 0.45, (integrateSeed dt elapsed sd).pos.z⟩] ∧
    (updateSeeds s dt elapsed).plantPos =
      ⟨(integrateSeed dt elapsed sd).pos.x, 0.45, (integrateSeed dt elapsed sd).pos.z⟩ ∧
    (updateSeeds s dt elapsed).wetness = 0 ∧
    (updateSeeds s dt elapsed).growth = 0 ∧
    (updateSeeds s dt elapsed).puffVisible = false ∧
    (updateSeeds s dt elapsed).plantVisible = false ∧
    (updateSeeds s dt elapsed).planted = false ∧
    (updateSeeds s dt elapsed).watered = false ∧
    (updateSeeds s dt elapsed).blooming = false ∧
    (updateSeeds s dt elapsed).puff = false ∧
    (updateSeeds s dt elapsed).followed = none ∧
    (updateSeeds s dt elapsed).rainActive = false := by
  have hlen : i < s.seeds.length := (List.getElem?_eq_some.mp hget).1
  have hsd : s.seeds[i] = sd := by
    have h0 := List.getElem?_eq_getElem hlen
    rw [hget] at h0
    exact (Option.some.injEq _ _).mp h0.symm
  have hsplit : s.seeds = s.seeds.take i ++ sd :: s.seeds.drop (i + 1) := by
    conv_lhs => rw [← List.take_append_drop i s.seeds]
    rw [List.drop_eq_getElem_cons hlen, hsd]
  have hlen_take : (s.seeds.take i).length = i := by
    rw [List.length_take]
    omega
  have hu : updateSeeds s dt elapsed =
      updateSeedsAux dt elapsed (sd :: s.seeds.drop (i + 1)) i
        (updateSeedsAux dt elapsed (s.seeds.take i) 0 s) := by
    rw [updateSeeds]
    conv_lhs => rw [hsplit]
    rw [updateSeedsAux_append, hlen_take, Nat.zero_add]
  have hs1 : updateSeedsAux dt elapsed (s.seeds.take i) 0 s =
      { s with seeds := (updateSeedsAux dt elapsed (s.seeds.take i) 0 s).seeds } := by
    apply updateSeedsAux_noHit
    intro j hj
    rw [hf] at hj
    rw [Option.some.injEq] at hj
    right
    rw [hlen_take]
    omega
  set s1 := updateSeedsAux dt elapsed (s.seeds.take i) 0 s with hs1def
  have hskip : ¬(sd.active = false ∨ sd.landed = true) := by simp [hact, hnl]
  have hfol1 : s1.followed = some i := by
    rw [hs1]
    exact hf
  have hproc : processSeed dt elapsed sd i s1 =
      resetCycle
        { s1 with
          seeds := s1.seeds.set i (integrateSeed dt elapsed sd)
          mounds := s1.mounds ++
            [⟨(integrateSeed dt elapsed sd).pos.x, 0.45, (integrateSeed dt elapsed sd).pos.z⟩] }
        (some ⟨(integrateSeed dt elapsed sd).pos.x, 0.45, (integrateSeed dt elapsed sd).pos.z⟩) := by
    simp only [processSeed]
    rw [if_neg hskip, if_pos hland, if_pos hfol1]
  have hfin : updateSeeds s dt elapsed =
      { processSeed dt elapsed sd i s1 with
        seeds := (updateSeedsAux dt elapsed (s.seeds.drop (i + 1)) (i + 1)
          (processSeed dt elapsed sd i s1)).seeds } := by
    rw [hu]
    show updateSeedsAux dt elapsed (s.seeds.drop (i + 1)) (i + 1)
      (processSeed dt elapsed sd i s1) = _
    apply updateSeedsAux_noHit
    intro j hj
    rw [hproc] at hj
    exact absurd hj (by simp [resetCycle])
  have hmnd : s1.mounds = s.mounds := by rw [hs1]
  rw [hfin, hproc]
  refine ⟨rfl, ?_, rfl, rfl, rfl, rfl, rfl, rfl, rfl, rfl, rfl, rfl, rfl⟩
  show s1.mounds ++ _ = s.mounds ++ _
  rw [hmnd]

/-- Witness for C3: a concrete followed seed at height `0.4` with zero
velocity lands in a `dt = 0` frame and resets the cycle onto a new mound at
the origin. -/
theorem c3_witness :
    (updateSeeds { exPuffState with followed := some 0, seeds := [exSeedFalling] } 0
        0).activeMound =
      ⟨(integrateSeed 0 0 exSeedFalling).pos.x, 0.45, (integrateSeed 0 0 exSeedFalling).pos.z⟩ ∧
    (updateSeeds { exPuffState with followed := some 0, seeds := [exSeedFalling] } 0
        0).wetness = 0 :=
  ⟨(c3_followed_landing_resets { exPuffState with followed := some 0, seeds := [exSeedFalling] }
      0 0 0 exSeedFalling rfl rfl rfl rfl
      (by norm_num [integrateSeed, exSeedFalling, Vec3.addScaled])).1,
   (c3_followed_landing_resets { exPuffState with followed := some 0, seeds := [exSeedFalling] }
      0 0 0 exSeedFalling rfl rfl rfl rfl
      (by norm_num [integrateSeed, exSeedFalling, Vec3.addScaled])).2.2.2.1⟩

/-! ## Frame-step characterisation lemmas -/

/-- A frame with no seeds leaves the seed pass inert. -/
theorem updateSeeds_nil {s : SimState} (dt elapsed : ℝ) (h : s.seeds = []) :
    updateSeeds s dt elapsed = s := by
  rw [updateSeeds, h]
  rfl

/-- `updateRain` while raining, when wetness does not reach `1`. -/
theorem updateRain_active {s : SimState} (dt : ℝ) (h1 : s.rainActive = true)
    (h3 : min 1 (s.wetness + dt * 0.25) < 1) :
    updateRain s dt = { s with
      wetness := min 1 (s.wetness + dt * 0.25)
      rainOpacity := min 0.9 (min 1 (s.wetness + dt * 0.25)) } := by
  have hc : ¬(1 ≤ ({ s with
      wetness := min 1 (s.wetness + dt * 0.25)
      rainOpacity := min 0.9 (min 1 (s.wetness + dt * 0.25)) } : SimState).wetness ∧
      ({ s with
        wetness := min 1 (s.wetness + dt * 0.25)
        rainOpacity := min 0.9 (min 1 (s.wetness + dt * 0.25)) } : SimState).watered = false) :=
    fun hcc => absurd hcc.1 (not_le.mpr h3)
  simp only [updateRain]
  rw [if_pos h1, if_neg hc]

/-- `updateRain` while raining on an unwatered mound, when wetness reaches
`1`: the watered transition fires and the rain stops. -/
theorem updateRain_active_cross {s : SimState} (dt : ℝ) (h1 : s.rainActive = true)
    (h2 : s.watered = false) (h3 : 1 ≤ min 1 (s.wetness + dt * 0.25)) :
    updateRain s dt = { s with
      wetness := min 1 (s.wetness + dt * 0.25)
      rainOpacity := min 0.9 (min 1 (s.wetness + dt * 0.25))
      watered := true
      rainActive := false } := by
  have hc : 1 ≤ ({ s with
      wetness := min 1 (s.wetness + dt * 0.25)
      rainOpacity := min 0.9 (min 1 (s.wetness + dt * 0.25)) } : SimState).wetness ∧
      ({ s with
        wetness := min 1 (s.wetness + dt * 0.25)
        rainOpacity := min 0.9 (min 1 (s.wetness + dt * 0.25)) } : SimState).watered = false :=
    ⟨h3, h2⟩
  simp only [updateRain]
  rw [if_pos h1, if_pos hc]

/-- `updateRain` with no rain on an already watered mound only decays the
opacity. -/
theorem updateRain_inactive {s : SimState} (dt : ℝ) (h1 : s.rainActive = false)
    (h2 : s.watered = true) :
    updateRain s dt = { s with rainOpacity := max 0 (s.rainOpacity - dt * 0.8) } := by
  have hra : ¬(s.rainActive = true) := by
    rw [h1]
    exact fun hc => Bool.noConfusion hc
  have hc : ¬(1 ≤ ({ s with rainOpacity := max 0 (s.rainOpacity - dt * 0.8) } : SimState).wetness ∧
      ({ s with rainOpacity := max 0 (s.rainOpacity - dt * 0.8) } : SimState).watered = false) := by
    intro hcc
    have h4 : s.watered = false := hcc.2
    rw [h2] at h4
    exact Bool.noConfusion h4
  simp only [updateRain]
  rw [if_neg hra, if_neg hc]

/-- `updateGrowth` does nothing while not blooming. -/
theorem updateGrowth_off {s : SimState} (dt : ℝ) (h : s.blooming = false) :
    updateGrowth s dt = s := by
  simp only [updateGrowth]
  rw [if_pos h]

/-- `updateGrowth` while blooming, when growth does not reach `1`. -/
theorem updateGrowth_on {s : SimState} (dt : ℝ) (h1 : s.blooming = true)
    (h2 : min 1 (s.growth + dt * 0.22) < 1) :
    updateGrowth s dt = { s with
      growth := min 1 (s.growth + dt * 0.22)
      stemScaleY := max 0.05 (min 1 (s.growth + dt * 0.22))
      stemPosY := 0.06 + min 1 (s.growth + dt * 0.22) * 0.64
      budVisible := if 0.35 < min 1 (s.growth + dt * 0.22) then true else false } := by
  have hb : ¬(s.blooming = false) := by
    rw [h1]
    exact fun hc => Bool.noConfusion hc
  simp only [updateGrowth]
  rw [if_neg hb, if_neg (not_le.mpr h2)]

/-- `updateGrowth` while blooming, when growth reaches `1`: the unique
PuffReady transition. -/
theorem updateGrowth_cross {s : SimState} (dt : ℝ) (h1 : s.blooming = true)
    (h2 : 1 ≤ min 1 (s.growth + dt * 0.22)) :
    updateGrowth s dt = { s with
      growth := min 1 (s.growth + dt * 0.22)
      stemScaleY := max 0.05 (min 1 (s.growth + dt * 0.22))
      stemPosY := 0.06 + min 1 (s.growth + dt * 0.22) * 0.64
      blooming := false
      puff := true
      puffVisible := true
      budVisible := true } := by
  have hb : ¬(s.blooming = false) := by
    rw [h1]
    exact fun hc => Bool.noConfusion hc
  simp only [updateGrowth]
  rw [if_neg hb, if_pos h2]

/-- Fields `updateRain` never writes. -/
theorem updateRain_fields (s : SimState) (dt : ℝ) :
    (updateRain s dt).planted = s.planted ∧ (updateRain s dt).blooming = s.blooming ∧
    (updateRain s dt).puff = s.puff ∧ (updateRain s dt).growth = s.growth ∧
    (updateRain s dt).seeds = s.seeds ∧ (updateRain s dt).followed = s.followed := by
  by_cases hra : s.rainActive = true
  · simp only [updateRain]
    rw [if_pos hra]
    split
    · exact ⟨rfl, rfl, rfl, rfl, rfl, rfl⟩
    · exact ⟨rfl, rfl, rfl, rfl, rfl, rfl⟩
  · simp only [updateRain]
    rw [if_neg hra]
    split
    · exact ⟨rfl, rfl, rfl, rfl, rfl, rfl⟩
    · exact ⟨rfl, rfl, rfl, rfl, rfl, rfl⟩

/-- Fields `updateGrowth` never writes. -/
theorem updateGrowth_fields (s : SimState) (dt : ℝ) :
    (updateGrowth s dt).planted = s.planted ∧ (updateGrowth s dt).watered = s.watered ∧
    (updateGrowth s dt).wetness = s.wetness ∧ (updateGrowth s dt).seeds = s.seeds ∧
    (updateGrowth s dt).followed = s.followed ∧
    (updateGrowth s dt).rainActive = s.rainActive := by
  simp only [updateGrowth]
  split
  · exact ⟨rfl, rfl, rfl, rfl, rfl, rfl⟩
  · split
    · exact ⟨rfl, rfl, rfl, rfl, rfl, rfl⟩
    · exact ⟨rfl, rfl, rfl, rfl, rfl, rfl⟩

/-- `updateGrowth` never clears the puff flag. -/
theorem updateGrowth_puff_true {s : SimState} (dt : ℝ) (h : s.puff = true) :
    (updateGrowth s dt).puff = true := by
  simp only [updateGrowth]
  split
  · exact h
  · split
    · rfl
    · exact h

/-- The only way `updateGrowth` can output a set puff flag: it was already
set, or the state was blooming with growth crossing `1` this step. -/
theorem updateGrowth_puff_sources {s : SimState} (dt : ℝ)
    (h : (updateGrowth s dt).puff = true) :
    s.puff = true ∨ (s.blooming = true ∧ 1 ≤ s.growth + dt * 0.22) := by
  by_cases hb : s.blooming = false
  · rw [updateGrowth_off dt hb] at h
    exact Or.inl h
  · have hb2 : s.blooming = true := by
      cases hB : s.blooming
      · exact absurd hB hb
      · rfl
    by_cases hg : 1 ≤ min 1 (s.growth + dt * 0.22)
    · exact Or.inr ⟨hb2, (le_min_iff.mp hg).2⟩
    · simp only [updateGrowth] at h
      rw [if_neg hb, if_neg hg] at h
      exact Or.inl h

/-- The no-followed-seed frame leaves all control fields unchanged. -/
theorem updateSeeds_fields_noFollow {s : SimState} (dt elapsed : ℝ)
    (h : s.followed = none) :
    (updateSeeds s dt elapsed).puff = s.puff ∧
    (updateSeeds s dt elapsed).planted = s.planted ∧
    (updateSeeds s dt elapsed).wetness = s.wetness ∧
    (updateSeeds s dt elapsed).growth = s.growth ∧
    (updateSeeds s dt elapsed).blooming = s.blooming ∧
    (updateSeeds s dt elapsed).watered = s.watered := by
  have h2 := updateSeeds_noFollow s dt elapsed h
  rw [h2]
  exact ⟨rfl, rfl, rfl, rfl, rfl, rfl⟩

/-- Iterating `max 0 (· - c)` on a clamped value. -/
theorem max_zero_sub_iterate (x c : ℝ) (hc : 0 ≤ c) :
    max 0 (max 0 x - c) = max 0 (x - c) := by
  rcases le_or_lt x 0 with h | h
  · rw [max_eq_left h, zero_sub, max_eq_left (by linarith), max_eq_left (by linarith)]
  · rw [max_eq_right h.le]

/-- Splitting an iterated frame run. -/
theorem iterFrames_add (dt el : ℝ) : ∀ (m n : ℕ) (s : SimState),
    iterFrames dt el (m + n) s = iterFrames dt el n (iterFrames dt el m s)
  | 0, n, s => by rw [Nat.zero_add]; rfl
  | m + 1, n, s => by
      rw [show m + 1 + n = m + n + 1 from by omega]
      show iterFrames dt el (m + n) (step s (Ev.frame dt el)) = _
      rw [iterFrames_add dt el m n (step s (Ev.frame dt el))]
      rfl

/-- Valid frames keep the run reachable. -/
theorem reachable_iterFrames {dt : ℝ} (el : ℝ) (h1 : 0 ≤ dt) (h2 : dt ≤ 0.033) :
    ∀ (n : ℕ) {s : SimState}, Reachable s → Reachable (iterFrames dt el n s)
  | 0, _, h => h
  | n + 1, _, h => reachable_iterFrames el h1 h2 n (Reachable.next h ⟨h1, h2⟩)

/-! ## The concrete run, frame by frame -/

/-- Planting and pressing the rain button enters the watering family. -/
theorem cxAfterRain_eq : cxAfterRain = wateringFam 0 := by
  have h : cxAfterRain = { exBase with
      planted := true
      plantVisible := true
      rainActive := true
      rainButtonDisabled := true } := rfl
  rw [h, wateringFam]
  have h0 : ((0 : ℕ) : ℝ) * 0.005 = 0 := by norm_num
  rw [h0]
  have hop : min 0.9 (0 : ℝ) = 0 := by norm_num
  rw [hop]
  rfl

/-- One rain frame advances the watering family while wetness stays below
`1`. -/
theorem wateringFam_step (n : ℕ) (el : ℝ) (hn : n ≤ 198) :
    step (wateringFam n) (Ev.frame (1 / 50) el) = wateringFam (n + 1) := by
  have hnR : (n : ℝ) ≤ 198 := by exact_mod_cast hn
  have hlt : min 1 ((wateringFam n).wetness + 1 / 50 * 0.25) < 1 := by
    have hw : (wateringFam n).wetness = (n : ℝ) * 0.005 := rfl
    rw [hw, min_lt_iff]
    right
    nlinarith
  have e1 := updateRain_active (s := wateringFam n) (1 / 50) rfl hlt
  have e2 := updateGrowth_off (s := { wateringFam n with
    wetness := min 1 ((wateringFam n).wetness + 1 / 50 * 0.25)
    rainOpacity := min 0.9 (min 1 ((wateringFam n).wetness + 1 / 50 * 0.25)) }) (1 / 50) rfl
  have e3 := updateSeeds_nil (s := { wateringFam n with
    wetness := min 1 ((wateringFam n).wetness + 1 / 50 * 0.25)
    rainOpacity := min 0.9 (min 1 ((wateringFam n).wetness + 1 / 50 * 0.25)) }) (1 / 50) el rfl
  show updateSeeds (updateGrowth (updateRain (wateringFam n) (1 / 50)) (1 / 50)) (1 / 50) el = _
  rw [e1, e2, e3]
  have hmin : min 1 ((wateringFam n).wetness + 1 / 50 * 0.25) = ((n + 1 : ℕ) : ℝ) * 0.005 := by
    have hw : (wateringFam n).wetness = (n : ℝ) * 0.005 := rfl
    rw [hw, min_eq_right (by nlinarith)]
    push_cast
    ring
  rw [hmin]
  rfl

/-- Frame 200 of rain: wetness reaches exactly `1`, the watered flag is set
and the rain stops. -/
theorem wateringFam_cross (el : ℝ) :
    step (wateringFam 199) (Ev.frame (1 / 50) el) = wateredSt := by
  have hge : 1 ≤ min 1 ((wateringFam 199).wetness + 1 / 50 * 0.25) := by
    have hw : (wateringFam 199).wetness = ((199 : ℕ) : ℝ) * 0.005 := rfl
    rw [hw, le_min_iff]
    exact ⟨le_refl 1, by norm_num⟩
  have e1 := updateRain_active_cross (s := wateringFam 199) (1 / 50) rfl rfl hge
  have e2 := updateGrowth_off (s := { wateringFam 199 with
    wetness := min 1 ((wateringFam 199).wetness + 1 / 50 * 0.25)
    rainOpacity := min 0.9 (min 1 ((wateringFam 199).wetness + 1 / 50 * 0.25))
    watered := true
    rainActive := false }) (1 / 50) rfl
  have e3 := updateSeeds_nil (s := { wateringFam 199 with
    wetness := min 1 ((wateringFam 199).wetness + 1 / 50 * 0.25)
    rainOpacity := min 0.9 (min 1 ((wateringFam 199).wetness + 1 / 50 * 0.25))
    watered := true
    rainActive := false }) (1 / 50) el rfl
  show updateSeeds (updateGrowth (updateRain (wateringFam 199) (1 / 50)) (1 / 50)) (1 / 50) el = _
  rw [e1, e2, e3]
  have hmin : min 1 ((wateringFam 199).wetness + 1 / 50 * 0.25) = 1 := by
    have hw : (wateringFam 199).wetness = ((199 : ℕ) : ℝ) * 0.005 := rfl
    rw [hw, min_eq_left (by norm_num)]
  rw [hmin]
  have hop : min 0.9 (1 : ℝ) = 0.9 := by norm_num
  rw [hop]
  rfl

/-- The watering family under repeated frames. -/
theorem wateringFam_iter : ∀ (k n : ℕ), n + k ≤ 199 →
    iterFrames (1 / 50) 0 k (wateringFam n) = wateringFam (n + k)
  | 0, n, _ => by
      show wateringFam n = wateringFam (n + 0)
      rw [Nat.add_zero]
  | k + 1, n, h => by
      show iterFrames (1 / 50) 0 k (step (wateringFam n) (Ev.frame (1 / 50) 0)) = _
      rw [wateringFam_step n 0 (by omega), wateringFam_iter k (n + 1) (by omega)]
      rw [show n + 1 + k = n + (k + 1) from by omega]

/-- The run reaches the watered state after the 200 rain frames. -/
theorem cxWatered_eq : cxWatered = wateredSt := by
  show iterFrames (1 / 50) 0 200 cxAfterRain = wateredSt
  rw [cxAfterRain_eq, show (200 : ℕ) = 199 + 1 from rfl,
    iterFrames_add (1 / 50) 0 199 1 (wateringFam 0), wateringFam_iter 199 0 (by omega)]
  show step (wateringFam (0 + 199)) (Ev.frame (1 / 50) 0) = wateredSt
  rw [show (0 + 199 : ℕ) = 199 from by omega]
  exact wateringFam_cross 0

/-- The sun click on the watered state starts blooming. -/
theorem wateredSt_sun : step wateredSt Ev.pointerSun = bloomEntry := rfl

/-- The first growth frame enters the blooming family. -/
theorem bloomEntry_step : step bloomEntry (Ev.frame (1 / 50) 0) = bloomFam 1 := by
  show updateSeeds (updateGrowth (updateRain bloomEntry (1 / 50)) (1 / 50)) (1 / 50) 0 = bloomFam 1
  rw [updateRain_inactive (s := bloomEntry) (1 / 50) rfl rfl]
  set R1 : SimState := { bloomEntry with
    rainOpacity := max 0 (bloomEntry.rainOpacity - 1 / 50 * 0.8) } with hR1
  have hlt : min 1 (R1.growth + 1 / 50 * 0.22) < 1 := by
    have hg : R1.growth = (0 : ℝ) := rfl
    rw [hg, min_lt_iff]
    right
    norm_num
  rw [updateGrowth_on (s := R1) (1 / 50) rfl hlt]
  set R2 : SimState := { R1 with
    growth := min 1 (R1.growth + 1 / 50 * 0.22)
    stemScaleY := max 0.05 (min 1 (R1.growth + 1 / 50 * 0.22))
    stemPosY := 0.06 + min 1 (R1.growth + 1 / 50 * 0.22) * 0.64
    budVisible := if 0.35 < min 1 (R1.growth + 1 / 50 * 0.22) then true else false } with hR2
  rw [updateSeeds_nil (s := R2) (1 / 50) 0 rfl]
  rw [hR2, hR1]
  ext <;> simp only [bloomEntry, wateredSt, bloomFam, exBase] <;>
    norm_num [min_def, max_def]

/-- One growth frame advances the blooming family while growth stays below
`1`. -/
theorem bloomFam_step (n : ℕ) (el : ℝ) (_h1 : 1 ≤ n) (h2 : n ≤ 226) :
    step (bloomFam n) (Ev.frame (1 / 50) el) = bloomFam (n + 1) := by
  have hnR : (n : ℝ) ≤ 226 := by exact_mod_cast h2
  show updateSeeds (updateGrowth (updateRain (bloomFam n) (1 / 50)) (1 / 50)) (1 / 50) el = _
  rw [updateRain_inactive (s := bloomFam n) (1 / 50) rfl rfl]
  set R1 : SimState := { bloomFam n with
    rainOpacity := max 0 ((bloomFam n).rainOpacity - 1 / 50 * 0.8) } with hR1
  have hgR : R1.growth = (n : ℝ) * 0.0044 := rfl
  have hlt : min 1 (R1.growth + 1 / 50 * 0.22) < 1 := by
    rw [hgR, min_lt_iff]
    right
    nlinarith
  rw [updateGrowth_on (s := R1) (1 / 50) rfl hlt]
  set R2 : SimState := { R1 with
    growth := min 1 (R1.growth + 1 / 50 * 0.22)
    stemScaleY := max 0.05 (min 1 (R1.growth + 1 / 50 * 0.22))
    stemPosY := 0.06 + min 1 (R1.growth + 1 / 50 * 0.22) * 0.64
    budVisible := if 0.35 < min 1 (R1.growth + 1 / 50 * 0.22) then true else false } with hR2
  rw [updateSeeds_nil (s := R2) (1 / 50) el rfl]
  rw [hR2, hR1]
  have hmin : min 1 ((n : ℝ) * 0.0044 + 1 / 50 * 0.22) = ((n + 1 : ℕ) : ℝ) * 0.0044 := by
    rw [min_eq_right (by nlinarith)]
    push_cast
    ring
  ext <;> simp only [bloomFam, exBase] <;>
    first
    | rfl
    | (simp only [hmin])
    | (rw [max_zero_sub_iterate (0.9 - (n : ℝ) * 0.016) (1 / 50 * 0.8) (by norm_num)]
       congr 1
       push_cast
       ring)

/-- The blooming family under repeated frames. -/
theorem bloomFam_iter : ∀ (k n : ℕ), 1 ≤ n → n + k ≤ 227 →
    iterFrames (1 / 50) 0 k (bloomFam n) = bloomFam (n + k)
  | 0, n, _, _ => by
      show bloomFam n = bloomFam (n + 0)
      rw [Nat.add_zero]
  | k + 1, n, h1, h2 => by
      show iterFrames (1 / 50) 0 k (step (bloomFam n) (Ev.frame (1 / 50) 0)) = _
      rw [bloomFam_step n 0 h1 (by omega), bloomFam_iter k (n + 1) (by omega) (by omega)]
      rw [show n + 1 + k = n + (k + 1) from by omega]

/-- Frame 228 of growth: growth reaches exactly `1` — the first PuffReady
transition — landing in the concrete puff-ready state. -/
theorem bloomFam_cross (el : ℝ) :
    step (bloomFam 227) (Ev.frame (1 / 50) el) = exPuffState := by
  show updateSeeds (updateGrowth (updateRain (bloomFam 227) (1 / 50)) (1 / 50)) (1 / 50) el = _
  rw [updateRain_inactive (s := bloomFam 227) (1 / 50) rfl rfl]
  set R1 : SimState := { bloomFam 227 with
    rainOpacity := max 0 ((bloomFam 227).rainOpacity - 1 / 50 * 0.8) } with hR1
  have hgR : R1.growth = ((227 : ℕ) : ℝ) * 0.0044 := rfl
  have hge : 1 ≤ min 1 (R1.growth + 1 / 50 * 0.22) := by
    rw [hgR, le_min_iff]
    exact ⟨le_refl 1, by norm_num⟩
  rw [updateGrowth_cross (s := R1) (1 / 50) rfl hge]
  set R2 : SimState := { R1 with
    growth := min 1 (R1.growth + 1 / 50 * 0.22)
    stemScaleY := max 0.05 (min 1 (R1.growth + 1 / 50 * 0.22))
    stemPosY := 0.06 + min 1 (R1.growth + 1 / 50 * 0.22) * 0.64
    blooming := false
    puff := true
    puffVisible := true
    budVisible := true } with hR2
  rw [updateSeeds_nil (s := R2) (1 / 50) el rfl]
  rw [hR2, hR1]
  ext <;> simp only [bloomFam, exPuffState, exBase] <;> norm_num [min_def, max_def]

/-- The run reaches the last blooming frame. -/
theorem cxS1_eq : cxS1 = bloomFam 227 := by
  show iterFrames (1 / 50) 0 227 (step cxWatered Ev.pointerSun) = bloomFam 227
  rw [cxWatered_eq, wateredSt_sun, show (227 : ℕ) = 1 + 226 from rfl,
    iterFrames_add (1 / 50) 0 1 226 bloomEntry]
  have h1 : iterFrames (1 / 50) 0 1 bloomEntry = bloomFam 1 := bloomEntry_step
  rw [h1, bloomFam_iter 226 1 (le_refl 1) (by omega)]

/-- The next frame performs the first PuffReady transition. -/
theorem cxS2_eq : cxS2 = exPuffState := by
  show step cxS1 (Ev.frame (1 / 50) 0) = exPuffState
  rw [cxS1_eq]
  exact bloomFam_cross 0

/-- The bud click disperses 36 seeds and clears the puff flag. -/
theorem cxS3_eq : cxS3 = cxS3lit := by
  show step cxS2 (Ev.pointerBud cxRnd) = cxS3lit
  rw [cxS2_eq]
  rfl

/-- The second sun click is accepted and restarts blooming. -/
theorem cxS4_eq : cxS4 = cxS4lit := by
  show step cxS3 Ev.pointerSun = cxS4lit
  rw [cxS3_eq]
  rfl

/-- The final frame of the run sets the puff flag a second time, leaving
planted, wetness and growth untouched. -/
theorem cxS5_facts :
    cxS5.puff = true ∧ cxS5.planted = true ∧ cxS5.wetness = 1 ∧ cxS5.growth = 1 := by
  have h0 : cxS5 =
      updateSeeds (updateGrowth (updateRain cxS4lit (1 / 50)) (1 / 50)) (1 / 50) 0 := by
    show step cxS4 (Ev.frame (1 / 50) 0) = _
    rw [cxS4_eq]
    rfl
  rw [h0, updateRain_inactive (s := cxS4lit) (1 / 50) rfl rfl]
  set R1 : SimState := { cxS4lit with
    rainOpacity := max 0 (cxS4lit.rainOpacity - 1 / 50 * 0.8) } with hR1
  have hgR : R1.growth = (1 : ℝ) := rfl
  have hge : 1 ≤ min 1 (R1.growth + 1 / 50 * 0.22) := by
    rw [hgR, le_min_iff]
    exact ⟨le_refl 1, by norm_num⟩
  rw [updateGrowth_cross (s := R1) (1 / 50) rfl hge]
  set R2 : SimState := { R1 with
    growth := min 1 (R1.growth + 1 / 50 * 0.22)
    stemScaleY := max 0.05 (min 1 (R1.growth + 1 / 50 * 0.22))
    stemPosY := 0.06 + min 1 (R1.growth + 1 / 50 * 0.22) * 0.64
    blooming := false
    puff := true
    puffVisible := true
    budVisible := true } with hR2
  have hfields := updateSeeds_fields_noFollow (s := R2) (1 / 50) 0 rfl
  refine ⟨hfields.1, hfields.2.1, hfields.2.2.1, ?_⟩
  refine Eq.trans hfields.2.2.2.1 ?_
  show min 1 (R1.growth + 1 / 50 * 0.22) = 1
  rw [hgR, min_eq_left (by norm_num)]

/-- The dispersal and re-bloom states of the run keep the puff flag clear,
the mound planted and the wetness at `1` — no reset happened. -/
theorem cxS34_facts :
    cxS3.puff = false ∧ cxS3.planted = true ∧ cxS3.wetness = 1 ∧
    cxS4.puff = false ∧ cxS4.blooming = true ∧ cxS4.planted = true ∧ cxS4.wetness = 1 := by
  rw [cxS3_eq, cxS4_eq]
  exact ⟨rfl, rfl, rfl, rfl, rfl, rfl, rfl⟩

/-- The watering phase of the run is reachable from the initial state. -/
theorem cxWatered_reachable : Reachable cxWatered := by
  have r1 : Reachable (step initState Ev.pointerMound) :=
    Reachable.next Reachable.init trivial
  have r2 : Reachable cxAfterRain := by
    show Reachable (step (step initState Ev.pointerMound) Ev.rainButtonClick)
    exact Reachable.next r1 trivial
  show Reachable (iterFrames (1 / 50) 0 200 cxAfterRain)
  exact reachable_iterFrames 0 (by norm_num) (by norm_num) 200 r2

/-- The last blooming frame of the run is reachable from the initial state. -/
theorem cx_reach_s1 : Reachable cxS1 := by
  have r4 : Reachable (step cxWatered Ev.pointerSun) :=
    Reachable.next cxWatered_reachable trivial
  show Reachable (iterFrames (1 / 50) 0 227 (step cxWatered Ev.pointerSun))
  exact reachable_iterFrames 0 (by norm_num) (by norm_num) 227 r4

/-- Counterexample to claim C2 as stated, at a state reachable from the
initial state: right after watering completes, rain is inactive and
wetness is `1`; a strictly positive frame step leaves wetness unchanged at
`1` instead of decreasing it (only the rain opacity decays — wetness never
decays). -/
theorem c2_counterexample :
    Reachable cxWatered ∧
    cxWatered.rainActive = false ∧ cxWatered.watered = true ∧ cxWatered.wetness = 1 ∧
    (0 : ℝ) < 1 / 100 ∧
    (updateRain cxWatered (1 / 100)).wetness = 1 ∧
    ¬ (updateRain cxWatered (1 / 100)).wetness < cxWatered.wetness := by
  refine ⟨cxWatered_reachable, ?_, ?_, ?_, by norm_num, ?_, ?_⟩
  · rw [cxWatered_eq]; rfl
  · rw [cxWatered_eq]; rfl
  · rw [cxWatered_eq]; rfl
  · rw [cxWatered_eq, updateRain_inactive (s := wateredSt) (1 / 100) rfl rfl]; rfl
  · rw [cxWatered_eq, updateRain_inactive (s := wateredSt) (1 / 100) rfl rfl]
    show ¬ (1 : ℝ) < 1
    exact lt_irrefl 1

/-- The final state of the run is reachable from the initial state. -/
theorem cx_reach_s5 : Reachable cxS5 := by
  have h1 : Reachable cxS2 := by
    show Reachable (step cxS1 (Ev.frame (1 / 50) 0))
    exact Reachable.next cx_reach_s1 ⟨by norm_num, by norm_num⟩
  have h2 : Reachable cxS3 := by
    show Reachable (step cxS2 (Ev.pointerBud cxRnd))
    exact Reachable.next h1 (fun n => ⟨by norm_num [cxRnd], by norm_num [cxRnd]⟩)
  have h3 : Reachable cxS4 := by
    show Reachable (step cxS3 Ev.pointerSun)
    exact Reachable.next h2 trivial
  show Reachable (step cxS4 (Ev.frame (1 / 50) 0))
  exact Reachable.next h3 ⟨by norm_num, by norm_num⟩

/-- The puff flag is untouched by every event other than a frame or a bud
click. -/
theorem step_puff_eq (s : SimState) (e : Ev) (hf : ¬e.isFrame) (hb : ¬e.isBudClick) :
    (step s e).puff = s.puff := by
  cases e with
  | pointerMound =>
      simp only [step]
      split
      · rfl
      · rfl
  | pointerSun =>
      simp only [step]
      split
      · rfl
      · rfl
  | pointerBud rnd => exact absurd trivial hb
  | pointerSeed i =>
      simp only [step]
      split
      · rfl
      · rfl
  | pointerCloud => rfl
  | rainButtonClick =>
      simp only [step, startRain]
      split
      · rfl
      · rfl
  | cloudsTouch =>
      simp only [step, startRain]
      split
      · rfl
      · rfl
  | frame dt el => exact absurd trivial hf

/-- Counterexample to claim C4 as stated: a run reachable from the initial
state in which the lifecycle transitions to PuffReady twice with no
intervening cycle reset.  `cxS1` is the last blooming frame; the next
frame (`cxS2`) is the first PuffReady transition; the bud click (`cxS3`,
dispersal) and a second sun click (`cxS4`) are both accepted, and the
following frame (`cxS5`) sets the puff flag again.  Throughout,
`planted` stays `true` and `wetness` stays `1`, while `resetCycle` — the
only writer that could clear them — forces `planted = false` and
`wetness = 0`: no cycle reset happened at any step of the run. -/
theorem c4_counterexample :
    Reachable cxS1 ∧ Reachable cxS5 ∧
    cxS1.puff = false ∧ cxS2.puff = true ∧
    cxS3.puff = false ∧ cxS4.puff = false ∧ cxS5.puff = true ∧
    cxS4.blooming = true ∧
    cxS2.planted = true ∧ cxS3.planted = true ∧ cxS4.planted = true ∧ cxS5.planted = true ∧
    cxS2.wetness = 1 ∧ cxS3.wetness = 1 ∧ cxS4.wetness = 1 ∧ cxS5.wetness = 1 ∧
    cxS5.growth = 1 := by
  refine ⟨cx_reach_s1, cx_reach_s5, ?_, ?_, cxS34_facts.1, cxS34_facts.2.2.2.1,
    cxS5_facts.1, cxS34_facts.2.2.2.2.1, ?_, cxS34_facts.2.1, cxS34_facts.2.2.2.2.2.1,
    cxS5_facts.2.1, ?_, cxS34_facts.2.2.1, cxS34_facts.2.2.2.2.2.2,
    cxS5_facts.2.2.1, cxS5_facts.2.2.2⟩
  · rw [cxS1_eq]
    rfl
  · rw [cxS2_eq]
    rfl
  · rw [cxS2_eq]
    rfl
  · rw [cxS2_eq]
    rfl

/-- Claim C4 as amended: while blooming with growth below `1`, growth
strictly increases on every positive-`dt` growth update, following
`min 1 (growth + dt * 0.22)`; the growth update sets the puff flag only
when it was already set or the state is blooming with growth crossing `1`
this step; a clear puff flag can only become set by an animation frame of a
blooming state; and a set puff flag can only be cleared by a bud click
(dispersal) or by a step that performs a full cycle reset.  Hence between
two PuffReady transitions there is always an intervening dispersal or cycle
reset — but a dispersal alone (without any reset) suffices, as the
counterexample run shows. -/
theorem c4_puff_transitions_amended :
    (∀ (s : SimState) (dt : ℝ), s.blooming = true → s.growth < 1 → 0 < dt →
       s.growth < (updateGrowth s dt).growth ∧
       (updateGrowth s dt).growth = min 1 (s.growth + dt * 0.22)) ∧
    (∀ (s : SimState) (dt : ℝ), (updateGrowth s dt).puff = true →
       s.puff = true ∨ (s.blooming = true ∧ 1 ≤ s.growth + dt * 0.22)) ∧
    (∀ (s : SimState) (e : Ev), s.puff = false → (step s e).puff = true →
       e.isFrame ∧ s.blooming = true) ∧
    (∀ (s : SimState) (e : Ev), s.puff = true → (step s e).puff = false →
       e.isBudClick ∨ ResetLike (step s e)) := by
  refine ⟨?_, ?_, ?_, ?_⟩
  · intro s dt hb hg hdt
    have hb2 : ¬(s.blooming = false) := by
      rw [hb]
      exact fun h => Bool.noConfusion h
    have hgrowth : (updateGrowth s dt).growth = min 1 (s.growth + dt * 0.22) := by
      simp only [updateGrowth]
      rw [if_neg hb2]
      split
      · rfl
      · rfl
    refine ⟨?_, hgrowth⟩
    rw [hgrowth]
    exact lt_min hg (by linarith)
  · exact fun s dt h => updateGrowth_puff_sources dt h
  · intro s e h1 h2
    cases e with
    | frame dt el =>
        refine ⟨trivial, ?_⟩
        have h2f : (updateSeeds (updateGrowth (updateRain s dt) dt) dt el).puff = true := h2
        rcases updateSeeds_shape (updateGrowth (updateRain s dt) dt) dt el with hsh | hres
        · have hg : (updateGrowth (updateRain s dt) dt).puff = true := by
            have h3 := h2f
            rw [hsh] at h3
            exact h3
          rcases updateGrowth_puff_sources dt hg with hp | ⟨hb, -⟩
          · exfalso
            have h4 : s.puff = true := by
              rw [← (updateRain_fields s dt).2.2.1]
              exact hp
            rw [h1] at h4
            exact Bool.noConfusion h4
          · rw [← (updateRain_fields s dt).2.1]
            exact hb
        · exfalso
          have h4 := hres.2.2.2.1
          rw [h2f] at h4
          exact Bool.noConfusion h4
    | pointerBud rnd =>
        exfalso
        have hstep : step s (Ev.pointerBud rnd) = s := by
          simp only [step]
          rw [if_neg (by rw [h1]; exact fun h => Bool.noConfusion h)]
        rw [hstep] at h2
        rw [h1] at h2
        exact Bool.noConfusion h2
    | pointerMound =>
        exfalso
        have h3 := step_puff_eq s Ev.pointerMound (fun h => h) (fun h => h)
        rw [h3, h1] at h2
        exact Bool.noConfusion h2
    | pointerSun =>
        exfalso
        have h3 := step_puff_eq s Ev.pointerSun (fun h => h) (fun h => h)
        rw [h3, h1] at h2
        exact Bool.noConfusion h2
    | pointerSeed i =>
        exfalso
        have h3 := step_puff_eq s (Ev.pointerSeed i) (fun h => h) (fun h => h)
        rw [h3, h1] at h2
        exact Bool.noConfusion h2
    | pointerCloud =>
        exfalso
        have h3 := step_puff_eq s Ev.pointerCloud (fun h => h) (fun h => h)
        rw [h3, h1] at h2
        exact Bool.noConfusion h2
    | rainButtonClick =>
        exfalso
        have h3 := step_puff_eq s Ev.rainButtonClick (fun h => h) (fun h => h)
        rw [h3, h1] at h2
        exact Bool.noConfusion h2
    | cloudsTouch =>
        exfalso
        have h3 := step_puff_eq s Ev.cloudsTouch (fun h => h) (fun h => h)
        rw [h3, h1] at h2
        exact Bool.noConfusion h2
  · intro s e h1 h2
    cases e with
    | pointerBud rnd => exact Or.inl trivial
    | frame dt el =>
        have h2f : (updateSeeds (updateGrowth (updateRain s dt) dt) dt el).puff = false := h2
        rcases updateSeeds_shape (updateGrowth (updateRain s dt) dt) dt el with hsh | hres
        · exfalso
          have hg : (updateGrowth (updateRain s dt) dt).puff = true :=
            updateGrowth_puff_true dt (by rw [(updateRain_fields s dt).2.2.1]; exact h1)
          have h3 : (updateGrowth (updateRain s dt) dt).puff = false := by
            have h4 := h2f
            rw [hsh] at h4
            exact h4
          rw [hg] at h3
          exact Bool.noConfusion h3
        · exact Or.inr hres
    | pointerMound =>
        exfalso
        have h3 := step_puff_eq s Ev.pointerMound (fun h => h) (fun h => h)
        rw [h3, h1] at h2
        exact Bool.noConfusion h2
    | pointerSun =>
        exfalso
        have h3 := step_puff_eq s Ev.pointerSun (fun h => h) (fun h => h)
        rw [h3, h1] at h2
        exact Bool.noConfusion h2
    | pointerSeed i =>
        exfalso
        have h3 := step_puff_eq s (Ev.pointerSeed i) (fun h => h) (fun h => h)
        rw [h3, h1] at h2
        exact Bool.noConfusion h2
    | pointerCloud =>
        exfalso
        have h3 := step_puff_eq s Ev.pointerCloud (fun h => h) (fun h => h)
        rw [h3, h1] at h2
        exact Bool.noConfusion h2
    | rainButtonClick =>
        exfalso
        have h3 := step_puff_eq s Ev.rainButtonClick (fun h => h) (fun h => h)
        rw [h3, h1] at h2
        exact Bool.noConfusion h2
    | cloudsTouch =>
        exfalso
        have h3 := step_puff_eq s Ev.cloudsTouch (fun h => h) (fun h => h)
        rw [h3, h1] at h2
        exact Bool.noConfusion h2

/-- Witness for the amended C4 at concrete states: a strict growth step, a
growth update reaching `1`, a frame re-setting the puff flag of a blooming
state, and a bud click clearing it. -/
theorem c4_witness :
    (exBloomMid 0.5).growth < (updateGrowth (exBloomMid 0.5) 1).growth ∧
    ((exBloomMid 0.9).puff = true ∨
      ((exBloomMid 0.9).blooming = true ∧ 1 ≤ (exBloomMid 0.9).growth + 1 * 0.22)) ∧
    ((Ev.frame (1 / 50) 0).isFrame ∧ exSecondBloom.blooming = true) ∧
    ((Ev.pointerBud cxRnd).isBudClick ∨
      ResetLike (step exPuffState (Ev.pointerBud cxRnd))) := by
  refine ⟨?_, ?_, ?_, ?_⟩
  · exact (c4_puff_transitions_amended.1 (exBloomMid 0.5) 1
      rfl (by norm_num [exBloomMid, exBase]) (by norm_num)).1
  · refine c4_puff_transitions_amended.2.1 (exBloomMid 0.9) 1 ?_
    rw [updateGrowth_cross (s := exBloomMid 0.9) 1 rfl
      (by rw [le_min_iff]; exact ⟨le_refl 1, by norm_num [exBloomMid, exBase]⟩)]
  · refine c4_puff_transitions_amended.2.2.1 exSecondBloom (Ev.frame (1 / 50) 0) rfl ?_
    show (updateSeeds (updateGrowth (updateRain exSecondBloom (1 / 50)) (1 / 50))
      (1 / 50) 0).puff = true
    rw [updateRain_inactive (s := exSecondBloom) (1 / 50) rfl rfl]
    rw [updateGrowth_cross (s := { exSecondBloom with
        rainOpacity := max 0 (exSecondBloom.rainOpacity - 1 / 50 * 0.8) }) (1 / 50) rfl
      (by rw [le_min_iff]; exact ⟨le_refl 1, by norm_num [exSecondBloom, exPuffState, exBase]⟩)]
    exact (updateSeeds_fields_noFollow (1 / 50) 0 rfl).1
  · exact c4_puff_transitions_amended.2.2.2 exPuffState (Ev.pointerBud cxRnd) rfl rfl

end Dandelion
